import Mathlib

/-!
Verification of the HeyGem API-server job lifecycle and queue scheduler.

The definitions below are a shallow embedding of the JavaScript source:
  - the video DAO (`src/dao/video.js`): `selectByStatus`, `findFirstByStatus`,
    `selectByID`, `update`, `updateStatus`, `insert`;
  - the video service (`src/services/video.js`): `synthesizeVideo`,
    `handleVideoCompletion`, `processPendingVideos`, `processNextWaitingVideo`;
  - the task service (`src/services/task.js`): `processTaskQueue`,
    `retryFailedTask`, `cancelTask`, `getWaitingTasks`;
  - the route handler `POST /api/v1/videos/:id/generate` (`routes/videos.js`).

The SQLite store is modelled as a list of rows in rowid (insertion) order;
queries without ORDER BY read the list in that order.  Remote gateways
(TTS, Face2Face submit and poll, the ffprobe duration probe) are oracles
carried in an `Env` record; a thrown JS exception is an `Except.error`
carrying the message of the error.  The embedding follows the production
code path (the `NODE_ENV === development` mock branches are not modelled).
Deferred work (`setImmediate`) runs to completion before the next tick is
considered; the ids scheduled in a tick are captured against the store as
it was when `setImmediate` was invoked, exactly as the closures capture
`video.id` in the source.
-/

namespace Heygem

/-- Job status values of the `video.status` column. -/
inductive Status where
  | draft
  | waiting
  | processing
  | pending
  | completed
  | failed
deriving DecidableEq, Repr

/-- Render a status as the string stored in the database, used in error
messages such as the cancel guard message. -/
def Status.toText : Status → String
  | .draft => "draft"
  | .waiting => "waiting"
  | .processing => "processing"
  | .pending => "pending"
  | .completed => "completed"
  | .failed => "failed"

/-- One row of the `video` table, restricted to the columns the task and
video services read or write.  `code` is the remote task handle, `param`
the JSON-stringified submit parameters, `file_path` the result artifact. -/
structure Job where
  id : Nat
  name : String
  model_id : Nat
  voice_id : Option Nat
  text_content : String
  status : Status
  audio_path : Option String
  code : Option String
  param : Option String
  progress : Nat
  message : Option String
  file_path : Option String
  duration : Option Nat
  created_at : Nat
deriving DecidableEq, Repr

/-- dao/video.js selectByStatus: SELECT * FROM video WHERE status = ?
(no ORDER BY; rows come back in rowid order, i.e. list order). -/
def selectByStatus (store : List Job) (s : Status) : List Job :=
  store.filter fun j => j.status == s

/-- dao/video.js findFirstByStatus: SELECT * FROM video WHERE status = ? LIMIT 1. -/
def findFirstByStatus (store : List Job) (s : Status) : Option Job :=
  (selectByStatus store s).head?

/-- dao/video.js selectByID: SELECT * FROM video WHERE id = ?. -/
def selectByID (store : List Job) (i : Nat) : Option Job :=
  store.find? fun j => j.id == i

/-- A partial row for dao/video.js update: a field that is `none` was not
named in the JS update object and is left unchanged; `some v` sets the
column to `v` (for nullable columns `some none` sets it to NULL, as the
source does with `file_path: null`). -/
structure VideoUpdate where
  status : Option Status := none
  message : Option (Option String) := none
  progress : Option Nat := none
  audio_path : Option (Option String) := none
  code : Option (Option String) := none
  param : Option (Option String) := none
  file_path : Option (Option String) := none
  duration : Option (Option Nat) := none
deriving Repr

/-- Merge the named fields of a partial update into a row. -/
def applyUpdate (u : VideoUpdate) (j : Job) : Job :=
  { j with
    status := u.status.getD j.status
    message := u.message.getD j.message
    progress := u.progress.getD j.progress
    audio_path := u.audio_path.getD j.audio_path
    code := u.code.getD j.code
    param := u.param.getD j.param
    file_path := u.file_path.getD j.file_path
    duration := u.duration.getD j.duration }

/-- dao/video.js update: UPDATE video SET named fields WHERE id = ?. -/
def update (store : List Job) (i : Nat) (u : VideoUpdate) : List Job :=
  store.map fun j => if j.id == i then applyUpdate u j else j

/-- dao/video.js updateStatus: UPDATE video SET status, message, progress,
file_path WHERE id = ?.  The JS defaults are progress = 0 and
file_path equal to the empty string; call sites pass them explicitly here. -/
def updateStatus (store : List Job) (i : Nat) (s : Status) (msg : Option String)
    (progress : Nat) (fp : String) : List Job :=
  update store i
    { status := some s, message := some msg, progress := some progress,
      file_path := some (some fp) }

/-- dao/video.js insert: INSERT with created_at = Date.now(); the new row
is appended (its rowid is largest), with the draft defaults of the
creation route. -/
def insertVideo (store : List Job) (newId now : Nat) (name : String)
    (modelId : Nat) (voiceId : Option Nat) (text : String) : List Job :=
  store ++ [{ id := newId, name := name, model_id := modelId, voice_id := voiceId,
              text_content := text, status := Status.draft, audio_path := none,
              code := none, param := none, progress := 0, message := none,
              file_path := none, duration := none, created_at := now }]

/-- A row of the f2f_model table, restricted to what synthesizeVideo reads. -/
structure FaceModel where
  id : Nat
  video_path : String
  voice_id : Option Nat
deriving DecidableEq, Repr

/-- A row of the voice table; only the id is read by synthesizeVideo. -/
structure Voice where
  id : Nat
deriving DecidableEq, Repr

/-- Response of the Face2Face submit call (api/f2f.js makeVideo): a code
(10000 means accepted) and an optional message. -/
structure SubmitResult where
  code : Nat
  msg : Option String
deriving DecidableEq, Repr

/-- The `data` payload of a Face2Face status query response. -/
structure PollData where
  status : Nat
  msg : Option String
  progress : Nat
  result : String
deriving DecidableEq, Repr

/-- Response of the Face2Face status query (api/f2f.js getVideoStatus). -/
structure PollResponse where
  code : Nat
  msg : Option String
  data : PollData
deriving DecidableEq, Repr

/-- External collaborators of one run: reference tables and the remote
gateways.  A gateway call that throws is modelled as `Except.error` with
the message of the thrown error; `uuid` is the task code generated by
crypto.randomUUID() for the submit parameters. -/
structure Env where
  models : List FaceModel
  voices : List Voice
  tts : Nat → String → Except String String
  submit : String → String → Except String SubmitResult
  uuid : String
  poll : String → Except String PollResponse
  probe : String → Except String Nat

deriving instance DecidableEq for Except

/-- JS truthiness of a nullable string column (null and the empty string
are falsy). -/
def jsTruthy : Option String → Bool
  | none => false
  | some s => s != ""

/-- JS `a || b` for an optional string against a string default. -/
def jsOr (s : Option String) (d : String) : String :=
  match s with
  | some v => if v = "" then d else v
  | none => d

/-- JS `a || b` for the nullable numeric ids in `video.voice_id || model.voice_id`
(null and 0 are falsy). -/
def jsOrId (a b : Option Nat) : Option Nat :=
  match a with
  | some v => if v = 0 then b else some v
  | none => b

/-- The partial row written by the first step of synthesizeVideo. -/
def processingUpdate : VideoUpdate :=
  { file_path := some none, status := some Status.processing,
    message := some (some "Submitting task...") }

/-- First step of services/video.js synthesizeVideo: the update that marks the
row as processing, clears file_path and sets the submitting message. -/
def processingMark (store : List Job) (videoId : Nat) : List Job :=
  update store videoId processingUpdate

/-- Audio-resolution stage of synthesizeVideo: reuse video.audio_path when it
is truthy, otherwise look up the voice (video.voice_id falling back to
model.voice_id) and call the TTS gateway.  A missing voice row throws. -/
def resolveAudio (env : Env) (video : Job) (model : FaceModel) : Except String String :=
  if jsTruthy video.audio_path then
    Except.ok (video.audio_path.getD "")
  else
    match jsOrId video.voice_id model.voice_id with
    | none => Except.error "Voice not found: undefined"
    | some vid =>
      match env.voices.find? fun v => v.id == vid with
      | none => Except.error ("Voice not found: " ++ toString vid)
      | some voice => env.tts voice.id video.text_content

/-- The JSON.stringify of the submit parameter object built by
callFace2FaceAPI (an opaque string from the point of view of the claims). -/
def paramText (env : Env) (audioPath videoPath : String) : String :=
  "audio_url=" ++ audioPath ++ ";video_url=" ++ videoPath ++ ";code=" ++ env.uuid

/-- Remainder of synthesizeVideo after the processing mark: resolve the model,
resolve audio, call the Face2Face submit gateway, and record the outcome.
Every thrown error is caught by the surrounding try/catch of the source,
which runs updateStatus(videoId, failed, error.message) and then RETHROWS
the error (part_007:233).  The result is therefore a pair: the updated
store, and the error the catch block rethrows — none when the pipeline
reached the submit answer without throwing. -/
def submitOutcomeRun (env : Env) (store1 : List Job) (videoId : Nat)
    (video : Job) : List Job × Option String :=
  match env.models.find? fun m => m.id == video.model_id with
  | none =>
    (updateStatus store1 videoId Status.failed
      (some ("Model not found: " ++ toString video.model_id)) 0 "",
     some ("Model not found: " ++ toString video.model_id))
  | some model =>
    match resolveAudio env video model with
    | Except.error e =>
      (updateStatus store1 videoId Status.failed (some e) 0 "", some e)
    | Except.ok audioPath =>
      match env.submit audioPath model.video_path with
      | Except.error e =>
        (updateStatus store1 videoId Status.failed (some e) 0 "", some e)
      | Except.ok result =>
        (if result.code == 10000 then
          update store1 videoId
            { file_path := some none, status := some Status.pending,
              message := some (some (jsOr result.msg "Task submitted successfully")),
              audio_path := some (some audioPath),
              param := some (some (paramText env audioPath model.video_path)),
              code := some (some env.uuid) }
        else
          update store1 videoId
            { file_path := some none, status := some Status.failed,
              message := some (some (jsOr result.msg "Task submission failed")),
              audio_path := some (some audioPath),
              param := some (some (paramText env audioPath model.video_path)),
              code := some (some env.uuid) }, none)

/-- The store effect of the submission pipeline. -/
def submitOutcome (env : Env) (store1 : List Job) (videoId : Nat)
    (video : Job) : List Job :=
  (submitOutcomeRun env store1 videoId video).1

/-- services/video.js synthesizeVideo: mark processing, re-read the row, and
run the submission pipeline; a missing row throws into the catch block.
Returns the updated store together with the error the catch block
rethrows (none when nothing was thrown): the callers invoke this through
setImmediate with no handler, so a `some` here is an unhandled promise
rejection. -/
def synthesizeVideoRun (env : Env) (store : List Job) (videoId : Nat) :
    List Job × Option String :=
  match selectByID (processingMark store videoId) videoId with
  | none =>
    (updateStatus (processingMark store videoId) videoId Status.failed
      (some ("Video not found: " ++ toString videoId)) 0 "",
     some ("Video not found: " ++ toString videoId))
  | some video => submitOutcomeRun env (processingMark store videoId) videoId video

/-- The store effect of synthesizeVideo. -/
def synthesizeVideo (env : Env) (store : List Job) (videoId : Nat) : List Job :=
  (synthesizeVideoRun env store videoId).1

/-- services/video.js handleVideoCompletion: probe the result media for its
duration and mark the row completed; a probe failure is caught and turned
into a failed status with an explanatory message. -/
def handleVideoCompletion (env : Env) (store : List Job) (video : Job)
    (d : PollData) : List Job :=
  match env.probe d.result with
  | Except.error e =>
    updateStatus store video.id Status.failed
      (some ("Completion handling failed: " ++ e)) 0 ""
  | Except.ok dur =>
    update store video.id
      { status := some Status.completed, message := some d.msg,
        progress := some d.progress, file_path := some (some d.result),
        duration := some (some dur) }

/-- services/video.js processNextWaitingVideo: the id whose synthesis gets
scheduled via setImmediate, looked up as the first waiting row. -/
def processNextWaitingVideo (store : List Job) : Option Nat :=
  (findFirstByStatus store Status.waiting).map fun v => v.id

/-- services/video.js processPendingVideos.  Returns the updated store,
whether a pending video was found (the source returns that row; its
truthiness drives processTaskQueue), and the ids scheduled for synthesis
by the internal processNextWaitingVideo call.  A poll exception is caught
and recorded as a failed status; response codes outside the handled set
leave the row untouched but still count as having processed it. -/
def processPendingVideos (env : Env) (store : List Job) :
    List Job × Bool × List Nat :=
  match findFirstByStatus store Status.pending with
  | none => (store, false, (processNextWaitingVideo store).toList)
  | some video =>
    match env.poll (video.code.getD "undefined") with
    | Except.error e =>
      (updateStatus store video.id Status.failed
        (some ("Status check failed: " ++ e)) 0 "", true, [])
    | Except.ok resp =>
      if resp.code == 9999 || resp.code == 10002 || resp.code == 10003 then
        (updateStatus store video.id Status.failed resp.msg 0 "", true, [])
      else if resp.code == 10000 then
        if resp.data.status == 1 then
          (updateStatus store video.id Status.pending resp.data.msg
            resp.data.progress "", true, [])
        else if resp.data.status == 2 then
          (handleVideoCompletion env store video resp.data, true, [])
        else if resp.data.status == 3 then
          (updateStatus store video.id Status.failed resp.data.msg 0 "", true, [])
        else (store, true, [])
      else (store, true, [])

/-- Run the synthesizeVideo calls a tick scheduled, in order, threading the
store; collect the errors each run rethrows into its setImmediate callback
(where nothing catches them). -/
def runScheduled (env : Env) (store : List Job) : List Nat → List Job × List String
  | [] => (store, [])
  | i :: rest =>
    ((runScheduled env (synthesizeVideoRun env store i).1 rest).1,
     (synthesizeVideoRun env store i).2.toList ++
       (runScheduled env (synthesizeVideoRun env store i).1 rest).2)

/-- services/task.js processTaskQueue, one scheduler tick: check the pending
video first; if none was found, processNextWaitingVideo is invoked a second
time by processTaskQueue itself.  Both setImmediate registrations capture
ids against the pre-tick store, and the deferred synthesizeVideo calls run
to completion before the next tick.  Returns the post-tick store and the
unhandled rejections those deferred calls produced. -/
def tickRun (env : Env) (store : List Job) : List Job × List String :=
  runScheduled env (processPendingVideos env store).1
    ((processPendingVideos env store).2.2 ++
      (if (processPendingVideos env store).2.1 then []
       else (processNextWaitingVideo store).toList))

/-- The store effect of one scheduler tick. -/
def processTaskQueue (env : Env) (store : List Job) : List Job :=
  (tickRun env store).1

/-- The unhandled promise rejections one scheduler tick produces: errors
rethrown by synthesizeVideo (part_007:233) inside setImmediate callbacks
that have no catch handler and no process-level unhandledRejection
handler. -/
def tickUncaught (env : Env) (store : List Job) : List String :=
  (tickRun env store).2

/-- Process state under the default unhandled-rejection policy of the Node
versions the package requires (16 and later): the first unhandled
rejection terminates the process. -/
structure ProcState where
  store : List Job
  alive : Bool
deriving DecidableEq, Repr

/-- One timer interval of the background loop: a live process runs the tick
and dies when the tick produced an unhandled rejection; a dead process
runs nothing. -/
def tickProc (env : Env) (p : ProcState) : ProcState :=
  if p.alive then
    { store := (tickRun env p.store).1,
      alive := (tickRun env p.store).2.isEmpty }
  else p

/-- Run successive timer intervals, each with its gateway behaviour. -/
def runTicks (envs : List Env) (p : ProcState) : ProcState :=
  envs.foldl (fun q e => tickProc e q) p

/-- services/task.js retryFailedTask: only a row in failed status is reset to
waiting with progress 0 and a retry message; anything else throws. -/
def retryFailedTask (store : List Job) (taskId : Nat) : Except String (List Job) :=
  match selectByID store taskId with
  | none => Except.error ("Task not found: " ++ toString taskId)
  | some video =>
    if video.status == Status.failed then
      Except.ok (update store taskId
        { status := some Status.waiting,
          message := some (some "Retrying task..."), progress := some 0 })
    else
      Except.error ("Task is not in failed status: " ++ toString taskId)

/-- services/task.js cancelTask: a row in waiting, processing or pending is
set to failed with the cancellation message and progress 0; anything else
throws. -/
def cancelTask (store : List Job) (taskId : Nat) : Except String (List Job) :=
  match selectByID store taskId with
  | none => Except.error ("Task not found: " ++ toString taskId)
  | some video =>
    if video.status == Status.waiting || video.status == Status.processing
        || video.status == Status.pending then
      Except.ok (update store taskId
        { status := some Status.failed,
          message := some (some "Task cancelled by user"), progress := some 0 })
    else
      Except.error ("Cannot cancel task in status: " ++ video.status.toText)

/-- One element of the getWaitingTasks result: the row together with its
1-based queue position and the queue length. -/
structure QueueEntry where
  task : Job
  queuePosition : Nat
  totalInQueue : Nat
deriving DecidableEq, Repr

/-- The `.map((task, index) => ...)` of getWaitingTasks, carrying the running
index explicitly. -/
def attachPositions : List Job → Nat → Nat → List QueueEntry
  | [], _, _ => []
  | t :: ts, i, total =>
    { task := t, queuePosition := i + 1, totalInQueue := total }
      :: attachPositions ts (i + 1) total

/-- services/task.js getWaitingTasks: the waiting rows in query order, each
with queuePosition = index + 1 and totalInQueue = number of waiting rows. -/
def getWaitingTasks (store : List Job) : List QueueEntry :=
  attachPositions (selectByStatus store Status.waiting) 0
    (selectByStatus store Status.waiting).length

/-- routes/videos.js POST /:id/generate: reject a missing row or one already
in processing or pending; otherwise set status waiting with progress 0 and
schedule synthesizeVideo(id) via setImmediate (modelled, as in a tick, by
running it to completion as part of the action). -/
def generateRoute (env : Env) (store : List Job) (videoId : Nat) :
    Except String (List Job) :=
  match selectByID store videoId with
  | none => Except.error "Video not found"
  | some video =>
    if video.status == Status.processing || video.status == Status.pending then
      Except.error "Video is already being processed"
    else
      Except.ok (synthesizeVideo env
        (update store videoId
          { status := some Status.waiting, progress := some 0 }) videoId)

/-- The observable system state: the video table in rowid order, the next
rowid, and the Date.now() clock (idealized as advancing between actions). -/
structure SysState where
  store : List Job
  nextId : Nat
  clock : Nat

/-- One external stimulus: a user action through the route layer or one
scheduler tick, with the gateway behaviour for that step. -/
inductive Action where
  | createVideo (name : String) (modelId : Nat) (voiceId : Option Nat) (text : String)
  | generate (env : Env) (videoId : Nat)
  | cancel (taskId : Nat)
  | retry (taskId : Nat)
  | tick (env : Env)

/-- Effect of one action on the system state.  Rejected user actions leave
the store unchanged (the route surfaces the error to the caller). -/
def stepAction (st : SysState) (a : Action) : SysState :=
  match a with
  | .createVideo name mid vid text =>
    { store := insertVideo st.store st.nextId st.clock name mid vid text,
      nextId := st.nextId + 1, clock := st.clock + 1 }
  | .generate env i =>
    { st with store := (generateRoute env st.store i).toOption.getD st.store,
              clock := st.clock + 1 }
  | .cancel i =>
    { st with store := (cancelTask st.store i).toOption.getD st.store,
              clock := st.clock + 1 }
  | .retry i =>
    { st with store := (retryFailedTask st.store i).toOption.getD st.store,
              clock := st.clock + 1 }
  | .tick env =>
    { st with store := processTaskQueue env st.store, clock := st.clock + 1 }

/-- Run a sequence of actions from a state. -/
def runActions (st : SysState) (as : List Action) : SysState :=
  as.foldl stepAction st

/-! ## Concrete scenario data

Reference rows, gateway behaviours and traces used by the concrete
scenarios below. -/

/-- A face model row used by the concrete scenarios. -/
def model1 : FaceModel := { id := 1, video_path := "model1.mp4", voice_id := some 1 }

/-- A voice row used by the concrete scenarios. -/
def voice1 : Voice := { id := 1 }

/-- Gateways that answer every call successfully; the poll reports the
remote task still running at 40 percent. -/
def happyEnv : Env :=
  { models := [model1], voices := [voice1],
    tts := fun _ _ => Except.ok "a1.wav",
    submit := fun _ _ => Except.ok { code := 10000, msg := some "ok" },
    uuid := "h1",
    poll := fun _ => Except.ok
      { code := 10000, msg := some "ok",
        data := { status := 1, msg := some "running", progress := 40,
                  result := "r1.mp4" } },
    probe := fun _ => Except.ok 12 }

/-- Same gateways, but the submit call is rejected with a quota message. -/
def rejectEnv : Env :=
  { happyEnv with
    submit := fun _ _ => Except.ok { code := 9999, msg := some "quota exceeded" } }

/-- Same gateways, but the poll response carries a protocol code the
service does not recognize. -/
def strangePollEnv : Env :=
  { happyEnv with
    poll := fun _ => Except.ok
      { code := 10000, msg := some "ok",
        data := { status := 7, msg := some "new", progress := 99,
                  result := "r1.mp4" } } }

/-- A baseline row the concrete scenarios vary. -/
def baseJob : Job :=
  { id := 1, name := "v1", model_id := 1, voice_id := some 1,
    text_content := "Hello", status := Status.draft, audio_path := none,
    code := none, param := none, progress := 0, message := none,
    file_path := none, duration := none, created_at := 0 }

/-- A failed row that still holds its remote handle and audio artifact. -/
def failedJob : Job :=
  { baseJob with
    status := Status.failed, audio_path := some "a0.wav",
    code := some "h0", progress := 50, message := some "boom" }

/-- The failed row after retryFailedTask. -/
def retriedJob : Job :=
  { failedJob with
    status := Status.waiting,
    message := some "Retrying task...", progress := 0 }

/-- A pending row being polled. -/
def pendingJob : Job :=
  { baseJob with
    status := Status.pending, code := some "h1", progress := 5,
    message := some "old", audio_path := some "a1.wav" }

/-- A completed row with its result artifact. -/
def completedJob : Job :=
  { baseJob with
    status := Status.completed, file_path := some "r0.mp4",
    duration := some 9, audio_path := some "a0.wav", code := some "h0" }

/-- A waiting row with a pre-supplied audio artifact. -/
def waitingAudioJob : Job :=
  { baseJob with status := Status.waiting, audio_path := some "a0.wav" }

/-- The row produced by synthesizeVideo on waitingAudioJob when the submit
call is rejected with a quota message. -/
def rejectedJob : Job :=
  { waitingAudioJob with
    status := Status.failed,
    message := some "quota exceeded", file_path := none,
    code := some "h1",
    param := some "audio_url=a0.wav;video_url=model1.mp4;code=h1" }

/-- The row produced by the generate route on completedJob under happyEnv. -/
def regeneratedJob : Job :=
  { completedJob with
    status := Status.pending, progress := 0,
    message := some "ok", file_path := none, code := some "h1",
    param := some "audio_url=a0.wav;video_url=model1.mp4;code=h1" }

/-- Gateways whose TTS call throws. -/
def ttsErrorEnv : Env :=
  { happyEnv with tts := fun _ _ => Except.error "tts down" }

/-- Gateways whose submit call throws. -/
def submitErrorEnv : Env :=
  { happyEnv with submit := fun _ _ => Except.error "gateway down" }

/-- Gateways whose poll call throws. -/
def pollErrorEnv : Env :=
  { happyEnv with poll := fun _ => Except.error "net down" }

/-- Gateways reporting remote success whose duration probe then throws. -/
def probeErrorEnv : Env :=
  { happyEnv with
    poll := fun _ => Except.ok
      { code := 10000, msg := some "ok",
        data := { status := 2, msg := some "done", progress := 100,
                  result := "r1.mp4" } },
    probe := fun _ => Except.error "unreadable" }

/-- Two waiting rows in creation order. -/
def waitingJobA : Job :=
  { baseJob with id := 1, status := Status.waiting, created_at := 10 }

/-- The later-created waiting row. -/
def waitingJobB : Job :=
  { baseJob with
    id := 2, name := "v2", status := Status.waiting,
    created_at := 20 }

/-- The empty system state. -/
def initialState : SysState := { store := [], nextId := 1, clock := 0 }

/-- A trace of user actions and one tick: create two drafts and call the
generate route on both while the first is still in flight. -/
def doubleFlightActs : List Action :=
  [Action.createVideo "v1" 1 (some 1) "Hello",
   Action.createVideo "v2" 1 (some 1) "World",
   Action.generate happyEnv 1,
   Action.generate happyEnv 2,
   Action.tick happyEnv]

/-- Number of rows in the in-flight statuses processing and pending. -/
def inFlightCount (store : List Job) : Nat :=
  (store.filter fun j =>
    j.status == Status.processing || j.status == Status.pending).length

/-! ## Basic lemmas about the store operations -/

theorem applyUpdate_id (u : VideoUpdate) (j : Job) : (applyUpdate u j).id = j.id := rfl

theorem applyUpdate_created_at (u : VideoUpdate) (j : Job) :
    (applyUpdate u j).created_at = j.created_at := rfl

/-- find? by id commutes with mapping an id-preserving function. -/
theorem find?_map_of_id_pres (g : Job → Job) (hg : ∀ j, (g j).id = j.id) (k : Nat)
    (l : List Job) :
    (l.map g).find? (fun j => j.id == k) = (l.find? (fun j => j.id == k)).map g := by
  induction l with
  | nil => rfl
  | cons a l ih =>
    by_cases hak : a.id = k
    · simp [List.find?_cons, hg, hak]
    · simp [List.find?_cons, hg, hak, ih]

theorem update_id_pres (u : VideoUpdate) (i : Nat) :
    ∀ j : Job, ((fun j => if j.id == i then applyUpdate u j else j) j).id = j.id := by
  intro j
  by_cases hj : j.id = i <;> simp [hj, applyUpdate_id]

/-- An update on one id leaves lookups of every other id unchanged. -/
theorem selectByID_update_ne (store : List Job) (u : VideoUpdate) (i k : Nat)
    (h : ¬ k = i) :
    selectByID (update store i u) k = selectByID store k := by
  rw [update, selectByID, selectByID,
    find?_map_of_id_pres _ (update_id_pres u i) k store]
  cases hf : store.find? fun j => j.id == k with
  | none => rfl
  | some j =>
    have hjk : j.id = k := by simpa using List.find?_some hf
    have hji : ¬ j.id = i := fun he => h (hjk ▸ he)
    simp [hji]

/-- An update on an id rewrites the looked-up row by applyUpdate. -/
theorem selectByID_update (store : List Job) (u : VideoUpdate) (i : Nat) (j : Job)
    (h : selectByID store i = some j) :
    selectByID (update store i u) i = some (applyUpdate u j) := by
  rw [update, selectByID,
    find?_map_of_id_pres _ (update_id_pres u i) i store]
  rw [selectByID] at h
  rw [h]
  have hji := List.find?_some h
  simp only [Option.map_some']
  rw [if_pos hji]

/-- In a store with no duplicate ids, looking a member row up by its id
finds exactly that row. -/
theorem selectByID_of_mem_nodup (store : List Job) (v : Job)
    (hnd : (store.map Job.id).Nodup) (hv : v ∈ store) :
    selectByID store v.id = some v := by
  induction store with
  | nil => cases hv
  | cons a l ih =>
    have hnd' : (a.id :: l.map Job.id).Nodup := by simpa using hnd
    rcases List.mem_cons.mp hv with rfl | hvl
    · simp [selectByID, List.find?_cons]
    · have hane : ¬ a.id = v.id := by
        intro he
        exact (List.nodup_cons.mp hnd').1 (he ▸ List.mem_map_of_mem Job.id hvl)
      have hb : (a.id == v.id) = false := by simpa using hane
      rw [selectByID] at ih ⊢
      simp only [List.find?_cons, hb]
      exact ih (List.nodup_cons.mp hnd').2 hvl

/-- Every branch of the submission pipeline ends in a single update of the
processed id, and that update sets the status to pending or failed. -/
theorem submitOutcome_eq_update (env : Env) (store1 : List Job) (i : Nat)
    (video : Job) :
    ∃ u : VideoUpdate, submitOutcome env store1 i video = update store1 i u ∧
      (u.status = some Status.pending ∨ u.status = some Status.failed) := by
  unfold submitOutcome submitOutcomeRun updateStatus
  split
  · exact ⟨_, rfl, Or.inr rfl⟩
  · split
    · exact ⟨_, rfl, Or.inr rfl⟩
    · split
      · exact ⟨_, rfl, Or.inr rfl⟩
      · split
        · exact ⟨_, rfl, Or.inl rfl⟩
        · exact ⟨_, rfl, Or.inr rfl⟩

/-- synthesizeVideo is two successive updates of the processed id, the
second of which sets the status to pending or failed. -/
theorem synthesizeVideo_eq_update (env : Env) (store : List Job) (i : Nat) :
    ∃ u₁ u₂ : VideoUpdate,
      synthesizeVideo env store i = update (update store i u₁) i u₂ ∧
      (u₂.status = some Status.pending ∨ u₂.status = some Status.failed) := by
  unfold synthesizeVideo synthesizeVideoRun
  split
  · exact ⟨_, _, rfl, Or.inr rfl⟩
  · rename_i video _
    obtain ⟨u, hu, hst⟩ := submitOutcome_eq_update env (processingMark store i) i video
    exact ⟨_, u, hu, hst⟩

/-- synthesizeVideo leaves lookups of every other id unchanged. -/
theorem selectByID_synthesizeVideo_ne (env : Env) (store : List Job) (i k : Nat)
    (h : ¬ k = i) :
    selectByID (synthesizeVideo env store i) k = selectByID store k := by
  obtain ⟨u₁, u₂, he, _⟩ := synthesizeVideo_eq_update env store i
  rw [he, selectByID_update_ne _ _ _ _ h, selectByID_update_ne _ _ _ _ h]

/-- After synthesizeVideo on a present row, that row is in pending or
failed status. -/
theorem synthesizeVideo_status (env : Env) (store : List Job) (i : Nat) (j : Job)
    (h : selectByID store i = some j) :
    ∃ j', selectByID (synthesizeVideo env store i) i = some j' ∧
      (j'.status = Status.pending ∨ j'.status = Status.failed) := by
  obtain ⟨u₁, u₂, he, hst⟩ := synthesizeVideo_eq_update env store i
  have h1 := selectByID_update store u₁ i j h
  have h2 := selectByID_update (update store i u₁) u₂ i _ h1
  refine ⟨_, he ▸ h2, ?_⟩
  rcases hst with hp | hp <;>
    [exact Or.inl (by simp [applyUpdate, hp]); exact Or.inr (by simp [applyUpdate, hp])]

/-- A successful findFirstByStatus yields a member row with that status. -/
theorem findFirstByStatus_mem (store : List Job) (s : Status) (v : Job)
    (h : findFirstByStatus store s = some v) : v ∈ store ∧ v.status = s := by
  rw [findFirstByStatus, selectByStatus] at h
  cases hf : store.filter (fun j => j.status == s) with
  | nil => rw [hf] at h; cases h
  | cons b t =>
    rw [hf] at h
    have hbv : b = v := by simpa using h
    have hb := List.mem_filter.mp (hf ▸ List.mem_cons_self b t)
    exact ⟨hbv ▸ hb.1, hbv ▸ (by simpa using hb.2)⟩

/-- Two member rows of an id-nodup store with equal ids are the same row. -/
theorem eq_of_id_eq_of_mem (store : List Job) (a b : Job)
    (hnd : (store.map Job.id).Nodup) (ha : a ∈ store) (hb : b ∈ store)
    (hid : a.id = b.id) : a = b :=
  List.inj_on_of_nodup_map hnd ha hb hid

/-- When a pending row exists, the pending branch of processPendingVideos
runs: it reports success, schedules nothing, and either leaves the store
alone or applies a single update to the pending row. -/
theorem processPendingVideos_pending (env : Env) (store : List Job) (v : Job)
    (hp : findFirstByStatus store Status.pending = some v) :
    ∃ st', processPendingVideos env store = (st', true, []) ∧
      (st' = store ∨ ∃ u : VideoUpdate, st' = update store v.id u) := by
  unfold processPendingVideos
  split
  · rename_i hnone
    rw [hnone] at hp
    cases hp
  · rename_i video hsome
    rw [hsome] at hp
    have hv : video = v := by simpa using hp
    subst hv
    unfold updateStatus
    split
    · exact ⟨_, rfl, Or.inr ⟨_, rfl⟩⟩
    · split
      · exact ⟨_, rfl, Or.inr ⟨_, rfl⟩⟩
      · split
        · split
          · exact ⟨_, rfl, Or.inr ⟨_, rfl⟩⟩
          · split
            · unfold handleVideoCompletion updateStatus
              split
              · exact ⟨_, rfl, Or.inr ⟨_, rfl⟩⟩
              · exact ⟨_, rfl, Or.inr ⟨_, rfl⟩⟩
            · split
              · exact ⟨_, rfl, Or.inr ⟨_, rfl⟩⟩
              · exact ⟨_, rfl, Or.inl rfl⟩
        · exact ⟨_, rfl, Or.inl rfl⟩

/-- When no pending row exists, processPendingVideos is a read-only pass
that schedules the first waiting row, if any. -/
theorem processPendingVideos_no_pending (env : Env) (store : List Job)
    (hp : findFirstByStatus store Status.pending = none) :
    processPendingVideos env store =
      (store, false, (processNextWaitingVideo store).toList) := by
  unfold processPendingVideos
  rw [hp]

/-- A tick that finds a pending row only touches that row: the post-tick
store is the pre-tick store or one update of the pending row. -/
theorem processTaskQueue_of_pending (env : Env) (store : List Job) (v : Job)
    (hp : findFirstByStatus store Status.pending = some v) :
    processTaskQueue env store = store ∨
      ∃ u : VideoUpdate, processTaskQueue env store = update store v.id u := by
  obtain ⟨st', hpp, hshape⟩ := processPendingVideos_pending env store v hp
  rw [processTaskQueue, tickRun, hpp]
  simpa [runScheduled] using hshape

/-- A tick with no pending row and a first waiting row w runs synthesizeVideo
on w twice (both setImmediate registrations captured the same id). -/
theorem processTaskQueue_promotes (env : Env) (store : List Job) (w : Job)
    (hp : findFirstByStatus store Status.pending = none)
    (hw : findFirstByStatus store Status.waiting = some w) :
    processTaskQueue env store =
      synthesizeVideo env (synthesizeVideo env store w.id) w.id := by
  rw [processTaskQueue, tickRun, processPendingVideos_no_pending env store hp]
  simp [processNextWaitingVideo, hw, runScheduled, synthesizeVideo]

/-- A tick with no pending and no waiting row is a no-op. -/
theorem processTaskQueue_noop (env : Env) (store : List Job)
    (hp : findFirstByStatus store Status.pending = none)
    (hw : findFirstByStatus store Status.waiting = none) :
    processTaskQueue env store = store := by
  rw [processTaskQueue, tickRun, processPendingVideos_no_pending env store hp]
  simp [processNextWaitingVideo, hw, runScheduled]

/-- In a strictly created_at-sorted store, the first waiting row in query
order is the earliest-created waiting row. -/
theorem findFirst_waiting_of_earliest (store : List Job) (A : Job)
    (hsort : (store.map Job.created_at).Pairwise (· < ·))
    (hA : A ∈ store) (hAw : A.status = Status.waiting)
    (hE : ∀ j ∈ store, j.status = Status.waiting → A.created_at ≤ j.created_at) :
    findFirstByStatus store Status.waiting = some A := by
  induction store with
  | nil => cases hA
  | cons x rest ih =>
    have hsx : (x.created_at :: rest.map Job.created_at).Pairwise (· < ·) := by
      simpa using hsort
    rcases List.mem_cons.mp hA with rfl | hAr
    · have hxt : (A.status == Status.waiting) = true := by simp [hAw]
      rw [findFirstByStatus, selectByStatus, List.filter_cons, hxt]
      rfl
    · have hxA : x.created_at < A.created_at :=
        (List.pairwise_cons.mp hsx).1 A.created_at
          (List.mem_map_of_mem Job.created_at hAr)
      have hxw : ¬ x.status = Status.waiting := by
        intro hw
        have := hE x (List.mem_cons_self x rest) hw
        omega
      have hxf : (x.status == Status.waiting) = false := by simpa using hxw
      rw [findFirstByStatus, selectByStatus, List.filter_cons, hxf]
      exact ih (by simpa using (List.pairwise_cons.mp hsx).2) hAr
        (fun j hj hw => hE j (List.mem_cons_of_mem x hj) hw)

theorem applyUpdate_model_id (u : VideoUpdate) (j : Job) :
    (applyUpdate u j).model_id = j.model_id := rfl

theorem applyUpdate_voice_id (u : VideoUpdate) (j : Job) :
    (applyUpdate u j).voice_id = j.voice_id := rfl

theorem applyUpdate_text_content (u : VideoUpdate) (j : Job) :
    (applyUpdate u j).text_content = j.text_content := rfl

theorem processingUpdate_audio_path (j : Job) :
    (applyUpdate processingUpdate j).audio_path = j.audio_path := rfl

/-- On a present row, the synthesizeVideo run is the submission pipeline
applied to the row as re-read after the processing mark. -/
theorem synthesizeVideoRun_of_select (env : Env) (store : List Job) (i : Nat)
    (j : Job) (hsel : selectByID store i = some j) :
    synthesizeVideoRun env store i =
      submitOutcomeRun env (processingMark store i) i
        (applyUpdate processingUpdate j) := by
  have h1 : selectByID (processingMark store i) i
      = some (applyUpdate processingUpdate j) :=
    selectByID_update store processingUpdate i j hsel
  unfold synthesizeVideoRun
  rw [h1]

/-- On a present row, synthesizeVideo is the submission pipeline applied to
the row as re-read after the processing mark. -/
theorem synthesizeVideo_of_select (env : Env) (store : List Job) (i : Nat)
    (j : Job) (hsel : selectByID store i = some j) :
    synthesizeVideo env store i =
      submitOutcome env (processingMark store i) i
        (applyUpdate processingUpdate j) := by
  unfold synthesizeVideo submitOutcome
  rw [synthesizeVideoRun_of_select env store i j hsel]

/-- Resolving audio when the row already carries a truthy audio path. -/
theorem resolveAudio_existing (env : Env) (video : Job) (mdl : FaceModel)
    (ap : String) (haud : video.audio_path = some ap) (hap : ¬ ap = "") :
    resolveAudio env video mdl = Except.ok ap := by
  unfold resolveAudio
  rw [haud]
  simp [jsTruthy, hap]

/-- Resolving audio through the TTS gateway when no audio path is present. -/
theorem resolveAudio_tts (env : Env) (video : Job) (mdl : FaceModel) (vid : Nat)
    (voice : Voice) (haud : video.audio_path = none)
    (hvid : jsOrId video.voice_id mdl.voice_id = some vid)
    (hvoice : (env.voices.find? fun vo => vo.id == vid) = some voice) :
    resolveAudio env video mdl = env.tts voice.id video.text_content := by
  unfold resolveAudio
  rw [haud, hvid]
  simp [jsTruthy, hvoice]

/-- The model-resolved, audio-failed outcome of the submission pipeline:
the row is marked failed and the caught error is rethrown. -/
theorem submitOutcomeRun_resolve_error (env : Env) (store1 : List Job) (i : Nat)
    (video : Job) (mdl : FaceModel) (e : String)
    (hmdl : (env.models.find? fun mo => mo.id == video.model_id) = some mdl)
    (hra : resolveAudio env video mdl = Except.error e) :
    submitOutcomeRun env store1 i video =
      (updateStatus store1 i Status.failed (some e) 0 "", some e) := by
  unfold submitOutcomeRun
  split
  · rename_i hnone
    rw [hmdl] at hnone
    cases hnone
  · rename_i model hsome
    rw [hmdl] at hsome
    have hm : mdl = model := by injection hsome
    subst hm
    split
    · rename_i e' herr
      rw [hra] at herr
      injection herr with he
      rw [he]
    · rename_i ap hok
      rw [hra] at hok
      cases hok

/-- Store effect of the audio-failed outcome. -/
theorem submitOutcome_resolve_error (env : Env) (store1 : List Job) (i : Nat)
    (video : Job) (mdl : FaceModel) (e : String)
    (hmdl : (env.models.find? fun mo => mo.id == video.model_id) = some mdl)
    (hra : resolveAudio env video mdl = Except.error e) :
    submitOutcome env store1 i video =
      updateStatus store1 i Status.failed (some e) 0 "" := by
  unfold submitOutcome
  rw [submitOutcomeRun_resolve_error env store1 i video mdl e hmdl hra]

/-- The audio-resolved, submit-throws outcome of the submission pipeline:
the row is marked failed and the caught error is rethrown. -/
theorem submitOutcomeRun_submit_error (env : Env) (store1 : List Job) (i : Nat)
    (video : Job) (mdl : FaceModel) (ap e : String)
    (hmdl : (env.models.find? fun mo => mo.id == video.model_id) = some mdl)
    (hra : resolveAudio env video mdl = Except.ok ap)
    (hsub : env.submit ap mdl.video_path = Except.error e) :
    submitOutcomeRun env store1 i video =
      (updateStatus store1 i Status.failed (some e) 0 "", some e) := by
  unfold submitOutcomeRun
  split
  · rename_i hnone
    rw [hmdl] at hnone
    cases hnone
  · rename_i model hsome
    rw [hmdl] at hsome
    have hm : mdl = model := by injection hsome
    subst hm
    split
    · rename_i e' herr
      rw [hra] at herr
      cases herr
    · rename_i ap' hok
      rw [hra] at hok
      have ha : ap = ap' := by injection hok
      subst ha
      split
      · rename_i e' herr
        rw [hsub] at herr
        injection herr with he
        rw [he]
      · rename_i r hok2
        rw [hsub] at hok2
        cases hok2

/-- Store effect of the submit-throws outcome. -/
theorem submitOutcome_submit_error (env : Env) (store1 : List Job) (i : Nat)
    (video : Job) (mdl : FaceModel) (ap e : String)
    (hmdl : (env.models.find? fun mo => mo.id == video.model_id) = some mdl)
    (hra : resolveAudio env video mdl = Except.ok ap)
    (hsub : env.submit ap mdl.video_path = Except.error e) :
    submitOutcome env store1 i video =
      updateStatus store1 i Status.failed (some e) 0 "" := by
  unfold submitOutcome
  rw [submitOutcomeRun_submit_error env store1 i video mdl ap e hmdl hra hsub]

/-- The audio-resolved, submit-answered outcome of the submission pipeline:
the row is rewritten with the remote handle, the audio path, the submit
parameters and the accept or reject status; nothing is rethrown. -/
theorem submitOutcomeRun_submit_answered (env : Env) (store1 : List Job)
    (i : Nat) (video : Job) (mdl : FaceModel) (ap : String) (r : SubmitResult)
    (hmdl : (env.models.find? fun mo => mo.id == video.model_id) = some mdl)
    (hra : resolveAudio env video mdl = Except.ok ap)
    (hsub : env.submit ap mdl.video_path = Except.ok r) :
    submitOutcomeRun env store1 i video =
      ((if r.code == 10000 then
        update store1 i
          { file_path := some none, status := some Status.pending,
            message := some (some (jsOr r.msg "Task submitted successfully")),
            audio_path := some (some ap),
            param := some (some (paramText env ap mdl.video_path)),
            code := some (some env.uuid) }
      else
        update store1 i
          { file_path := some none, status := some Status.failed,
            message := some (some (jsOr r.msg "Task submission failed")),
            audio_path := some (some ap),
            param := some (some (paramText env ap mdl.video_path)),
            code := some (some env.uuid) }), none) := by
  unfold submitOutcomeRun
  split
  · rename_i hnone
    rw [hmdl] at hnone
    cases hnone
  · rename_i model hsome
    rw [hmdl] at hsome
    have hm : mdl = model := by injection hsome
    subst hm
    split
    · rename_i e' herr
      rw [hra] at herr
      cases herr
    · rename_i ap' hok
      rw [hra] at hok
      have ha : ap = ap' := by injection hok
      subst ha
      split
      · rename_i e' herr
        rw [hsub] at herr
        cases herr
      · rename_i r' hok2
        rw [hsub] at hok2
        have hr : r = r' := by injection hok2
        subst hr
        rfl

/-- Store effect of the submit-answered outcome. -/
theorem submitOutcome_submit_answered (env : Env) (store1 : List Job) (i : Nat)
    (video : Job) (mdl : FaceModel) (ap : String) (r : SubmitResult)
    (hmdl : (env.models.find? fun mo => mo.id == video.model_id) = some mdl)
    (hra : resolveAudio env video mdl = Except.ok ap)
    (hsub : env.submit ap mdl.video_path = Except.ok r) :
    submitOutcome env store1 i video =
      (if r.code == 10000 then
        update store1 i
          { file_path := some none, status := some Status.pending,
            message := some (some (jsOr r.msg "Task submitted successfully")),
            audio_path := some (some ap),
            param := some (some (paramText env ap mdl.video_path)),
            code := some (some env.uuid) }
      else
        update store1 i
          { file_path := some none, status := some Status.failed,
            message := some (some (jsOr r.msg "Task submission failed")),
            audio_path := some (some ap),
            param := some (some (paramText env ap mdl.video_path)),
            code := some (some env.uuid) }) := by
  unfold submitOutcome
  rw [submitOutcomeRun_submit_answered env store1 i video mdl ap r hmdl hra hsub]

/-- The TTS-throws outcome of synthesizeVideo: the row ends failed with the
thrown message, progress 0. -/
theorem synthesizeVideo_tts_error (env : Env) (store : List Job) (i : Nat)
    (j : Job) (mdl : FaceModel) (vid : Nat) (voice : Voice) (e : String)
    (hsel : selectByID store i = some j)
    (hmdl : (env.models.find? fun mo => mo.id == j.model_id) = some mdl)
    (haud : j.audio_path = none)
    (hvid : jsOrId j.voice_id mdl.voice_id = some vid)
    (hvoice : (env.voices.find? fun vo => vo.id == vid) = some voice)
    (htts : env.tts voice.id j.text_content = Except.error e) :
    ∃ j', selectByID (synthesizeVideo env store i) i = some j' ∧
      j'.status = Status.failed ∧ j'.message = some e ∧ j'.progress = 0 := by
  have h1 : selectByID (processingMark store i) i
      = some (applyUpdate processingUpdate j) :=
    selectByID_update store processingUpdate i j hsel
  have hmdl' : (env.models.find? fun mo =>
      mo.id == (applyUpdate processingUpdate j).model_id) = some mdl := by
    simp only [applyUpdate_model_id]
    exact hmdl
  have hra : resolveAudio env (applyUpdate processingUpdate j) mdl
      = Except.error e := by
    rw [resolveAudio_tts env (applyUpdate processingUpdate j) mdl vid voice
      (by rw [processingUpdate_audio_path, haud])
      (by rw [applyUpdate_voice_id, hvid]) hvoice]
    rw [applyUpdate_text_content, htts]
  rw [synthesizeVideo_of_select env store i j hsel,
    submitOutcome_resolve_error env (processingMark store i) i _ mdl e hmdl' hra]
  exact ⟨_, selectByID_update _ _ i _ h1, rfl, rfl, rfl⟩

/-- The submit-throws outcome of synthesizeVideo: the row ends failed with
the thrown message, progress 0. -/
theorem synthesizeVideo_submit_error (env : Env) (store : List Job) (i : Nat)
    (j : Job) (mdl : FaceModel) (ap e : String)
    (hsel : selectByID store i = some j)
    (hmdl : (env.models.find? fun mo => mo.id == j.model_id) = some mdl)
    (haud : j.audio_path = some ap) (hap : ¬ ap = "")
    (hsub : env.submit ap mdl.video_path = Except.error e) :
    ∃ j', selectByID (synthesizeVideo env store i) i = some j' ∧
      j'.status = Status.failed ∧ j'.message = some e ∧ j'.progress = 0 := by
  have h1 : selectByID (processingMark store i) i
      = some (applyUpdate processingUpdate j) :=
    selectByID_update store processingUpdate i j hsel
  have hmdl' : (env.models.find? fun mo =>
      mo.id == (applyUpdate processingUpdate j).model_id) = some mdl := by
    simp only [applyUpdate_model_id]
    exact hmdl
  have hra : resolveAudio env (applyUpdate processingUpdate j) mdl
      = Except.ok ap :=
    resolveAudio_existing env _ mdl ap
      (by rw [processingUpdate_audio_path, haud]) hap
  rw [synthesizeVideo_of_select env store i j hsel,
    submitOutcome_submit_error env (processingMark store i) i _ mdl ap e
      hmdl' hra hsub]
  exact ⟨_, selectByID_update _ _ i _ h1, rfl, rfl, rfl⟩

/-- The probe-throws outcome of handleVideoCompletion. -/
theorem handleVideoCompletion_probe_error (env : Env) (store : List Job)
    (video : Job) (d : PollData) (e : String)
    (hprobe : env.probe d.result = Except.error e) :
    handleVideoCompletion env store video d =
      updateStatus store video.id Status.failed
        (some ("Completion handling failed: " ++ e)) 0 "" := by
  unfold handleVideoCompletion
  rw [hprobe]

/-- The probe-succeeds outcome of handleVideoCompletion. -/
theorem handleVideoCompletion_probe_ok (env : Env) (store : List Job)
    (video : Job) (d : PollData) (dur : Nat)
    (hprobe : env.probe d.result = Except.ok dur) :
    handleVideoCompletion env store video d =
      update store video.id
        { status := some Status.completed, message := some d.msg,
          progress := some d.progress, file_path := some (some d.result),
          duration := some (some dur) } := by
  unfold handleVideoCompletion
  rw [hprobe]

/-- The poll-throws branch of processPendingVideos. -/
theorem processPendingVideos_poll_error (env : Env) (store : List Job)
    (v : Job) (e : String)
    (hp : findFirstByStatus store Status.pending = some v)
    (hpoll : env.poll (v.code.getD "undefined") = Except.error e) :
    processPendingVideos env store =
      (updateStatus store v.id Status.failed
        (some ("Status check failed: " ++ e)) 0 "", true, []) := by
  unfold processPendingVideos
  split
  · rename_i hnone
    rw [hnone] at hp
    cases hp
  · rename_i video hsome
    rw [hsome] at hp
    have hv : video = v := by simpa using hp
    subst hv
    rw [hpoll]

/-- The failure-code branch of processPendingVideos. -/
theorem processPendingVideos_poll_failcode (env : Env) (store : List Job)
    (v : Job) (resp : PollResponse)
    (hp : findFirstByStatus store Status.pending = some v)
    (hpoll : env.poll (v.code.getD "undefined") = Except.ok resp)
    (hcode : resp.code = 9999 ∨ resp.code = 10002 ∨ resp.code = 10003) :
    processPendingVideos env store =
      (updateStatus store v.id Status.failed resp.msg 0 "", true, []) := by
  unfold processPendingVideos
  split
  · rename_i hnone
    rw [hnone] at hp
    cases hp
  · rename_i video hsome
    rw [hsome] at hp
    have hv : video = v := by simpa using hp
    subst hv
    split
    · rename_i e' herr
      rw [hpoll] at herr
      cases herr
    · rename_i resp' hok
      rw [hpoll] at hok
      have hr : resp = resp' := by injection hok
      subst hr
      rw [if_pos (by rcases hcode with h | h | h <;> rw [h] <;> decide)]

/-- The still-running branch of processPendingVideos. -/
theorem processPendingVideos_poll_running (env : Env) (store : List Job)
    (v : Job) (resp : PollResponse)
    (hp : findFirstByStatus store Status.pending = some v)
    (hpoll : env.poll (v.code.getD "undefined") = Except.ok resp)
    (h10 : resp.code = 10000) (hs1 : resp.data.status = 1) :
    processPendingVideos env store =
      (updateStatus store v.id Status.pending resp.data.msg
        resp.data.progress "", true, []) := by
  unfold processPendingVideos
  split
  · rename_i hnone
    rw [hnone] at hp
    cases hp
  · rename_i video hsome
    rw [hsome] at hp
    have hv : video = v := by simpa using hp
    subst hv
    split
    · rename_i e' herr
      rw [hpoll] at herr
      cases herr
    · rename_i resp' hok
      rw [hpoll] at hok
      have hr : resp = resp' := by injection hok
      subst hr
      rw [if_neg (by rw [h10]; decide), if_pos (by rw [h10]; decide),
        if_pos (by rw [hs1]; decide)]

/-- The remote-success branch of processPendingVideos hands the row to
handleVideoCompletion. -/
theorem processPendingVideos_poll_success (env : Env) (store : List Job)
    (v : Job) (resp : PollResponse)
    (hp : findFirstByStatus store Status.pending = some v)
    (hpoll : env.poll (v.code.getD "undefined") = Except.ok resp)
    (h10 : resp.code = 10000) (hs2 : resp.data.status = 2) :
    processPendingVideos env store =
      (handleVideoCompletion env store v resp.data, true, []) := by
  unfold processPendingVideos
  split
  · rename_i hnone
    rw [hnone] at hp
    cases hp
  · rename_i video hsome
    rw [hsome] at hp
    have hv : video = v := by simpa using hp
    subst hv
    split
    · rename_i e' herr
      rw [hpoll] at herr
      cases herr
    · rename_i resp' hok
      rw [hpoll] at hok
      have hr : resp = resp' := by injection hok
      subst hr
      rw [if_neg (by rw [h10]; decide), if_pos (by rw [h10]; decide),
        if_neg (by rw [hs2]; decide), if_pos (by rw [hs2]; decide)]

/-- The remote-terminal-failure branch of processPendingVideos. -/
theorem processPendingVideos_poll_terminal (env : Env) (store : List Job)
    (v : Job) (resp : PollResponse)
    (hp : findFirstByStatus store Status.pending = some v)
    (hpoll : env.poll (v.code.getD "undefined") = Except.ok resp)
    (h10 : resp.code = 10000) (hs3 : resp.data.status = 3) :
    processPendingVideos env store =
      (updateStatus store v.id Status.failed resp.data.msg 0 "", true, []) := by
  unfold processPendingVideos
  split
  · rename_i hnone
    rw [hnone] at hp
    cases hp
  · rename_i video hsome
    rw [hsome] at hp
    have hv : video = v := by simpa using hp
    subst hv
    split
    · rename_i e' herr
      rw [hpoll] at herr
      cases herr
    · rename_i resp' hok
      rw [hpoll] at hok
      have hr : resp = resp' := by injection hok
      subst hr
      rw [if_neg (by rw [h10]; decide), if_pos (by rw [h10]; decide),
        if_neg (by rw [hs3]; decide), if_neg (by rw [hs3]; decide),
        if_pos (by rw [hs3]; decide)]

/-- A remote data status outside 1, 2, 3 on a 10000 response leaves the
store untouched (but still counts as having processed the pending row). -/
theorem processPendingVideos_poll_unknown_status (env : Env) (store : List Job)
    (v : Job) (resp : PollResponse)
    (hp : findFirstByStatus store Status.pending = some v)
    (hpoll : env.poll (v.code.getD "undefined") = Except.ok resp)
    (h10 : resp.code = 10000) (hn1 : ¬ resp.data.status = 1)
    (hn2 : ¬ resp.data.status = 2) (hn3 : ¬ resp.data.status = 3) :
    processPendingVideos env store = (store, true, []) := by
  unfold processPendingVideos
  split
  · rename_i hnone
    rw [hnone] at hp
    cases hp
  · rename_i video hsome
    rw [hsome] at hp
    have hv : video = v := by simpa using hp
    subst hv
    split
    · rename_i e' herr
      rw [hpoll] at herr
      cases herr
    · rename_i resp' hok
      rw [hpoll] at hok
      have hr : resp = resp' := by injection hok
      subst hr
      rw [if_neg (by rw [h10]; decide), if_pos (by rw [h10]; decide),
        if_neg (by simp [hn1]), if_neg (by simp [hn2]), if_neg (by simp [hn3])]

/-- A response code outside the handled set leaves the store untouched. -/
theorem processPendingVideos_poll_unknown_code (env : Env) (store : List Job)
    (v : Job) (resp : PollResponse)
    (hp : findFirstByStatus store Status.pending = some v)
    (hpoll : env.poll (v.code.getD "undefined") = Except.ok resp)
    (hn1 : ¬ resp.code = 9999) (hn2 : ¬ resp.code = 10002)
    (hn3 : ¬ resp.code = 10003) (hn0 : ¬ resp.code = 10000) :
    processPendingVideos env store = (store, true, []) := by
  unfold processPendingVideos
  split
  · rename_i hnone
    rw [hnone] at hp
    cases hp
  · rename_i video hsome
    rw [hsome] at hp
    have hv : video = v := by simpa using hp
    subst hv
    split
    · rename_i e' herr
      rw [hpoll] at herr
      cases herr
    · rename_i resp' hok
      rw [hpoll] at hok
      have hr : resp = resp' := by injection hok
      subst hr
      rw [if_neg (by simp [hn1, hn2, hn3]), if_neg (by simp [hn0])]

/-- When a pending row exists, the tick result is exactly the store that
processPendingVideos produced: no synthesis is scheduled. -/
theorem processTaskQueue_eq_of_pending (env : Env) (store : List Job) (v : Job)
    (hp : findFirstByStatus store Status.pending = some v) :
    processTaskQueue env store = (processPendingVideos env store).1 := by
  obtain ⟨st', hpp, _⟩ := processPendingVideos_pending env store v hp
  rw [processTaskQueue, tickRun, hpp]
  simp [runScheduled]

/-- Each member of a strictly created_at-sorted list receives from
attachPositions the entry whose position is the offset plus one plus the
number of earlier-created members. -/
theorem attachPositions_mem (w : List Job) :
    ∀ j : Job, (w.map Job.created_at).Pairwise (· < ·) → j ∈ w →
    ∀ i total : Nat, ∃ e ∈ attachPositions w i total, e.task = j ∧
      e.totalInQueue = total ∧
      e.queuePosition =
        i + 1 + w.countP fun k => decide (k.created_at < j.created_at) := by
  induction w with
  | nil => intro j _ hj; cases hj
  | cons x rest ih =>
    intro j hsort hj i total
    have hsx : (x.created_at :: rest.map Job.created_at).Pairwise (· < ·) := by
      simpa using hsort
    rcases List.mem_cons.mp hj with rfl | hjr
    · refine ⟨_, List.mem_cons_self _ _, rfl, rfl, ?_⟩
      have hrest : rest.countP
          (fun k => decide (k.created_at < j.created_at)) = 0 := by
        rw [List.countP_eq_zero]
        intro a ha
        have hxa : j.created_at < a.created_at :=
          (List.pairwise_cons.mp hsx).1 _ (List.mem_map_of_mem Job.created_at ha)
        simp only [decide_eq_true_eq]
        omega
      rw [List.countP_cons, hrest]
      simp
    · have hxj : x.created_at < j.created_at :=
        (List.pairwise_cons.mp hsx).1 _ (List.mem_map_of_mem Job.created_at hjr)
      obtain ⟨e, he, het, htot, hpos⟩ := ih j
        (by simpa using (List.pairwise_cons.mp hsx).2) hjr (i + 1) total
      refine ⟨e, List.mem_cons_of_mem _ he, het, htot, ?_⟩
      rw [List.countP_cons]
      have hxb : (decide (x.created_at < j.created_at)) = true := by simpa using hxj
      rw [hxb]
      simp only [if_true]
      omega

/-- The TTS-throws run of synthesizeVideo rethrows the caught error into
its setImmediate callback. -/
theorem synthesizeVideoRun_tts_rethrow (env : Env) (store : List Job) (i : Nat)
    (j : Job) (mdl : FaceModel) (vid : Nat) (voice : Voice) (e : String)
    (hsel : selectByID store i = some j)
    (hmdl : (env.models.find? fun mo => mo.id == j.model_id) = some mdl)
    (haud : j.audio_path = none)
    (hvid : jsOrId j.voice_id mdl.voice_id = some vid)
    (hvoice : (env.voices.find? fun vo => vo.id == vid) = some voice)
    (htts : env.tts voice.id j.text_content = Except.error e) :
    (synthesizeVideoRun env store i).2 = some e := by
  have hmdl' : (env.models.find? fun mo =>
      mo.id == (applyUpdate processingUpdate j).model_id) = some mdl := by
    simp only [applyUpdate_model_id]
    exact hmdl
  have hra : resolveAudio env (applyUpdate processingUpdate j) mdl
      = Except.error e := by
    rw [resolveAudio_tts env (applyUpdate processingUpdate j) mdl vid voice
      (by rw [processingUpdate_audio_path, haud])
      (by rw [applyUpdate_voice_id, hvid]) hvoice,
      applyUpdate_text_content, htts]
  rw [synthesizeVideoRun_of_select env store i j hsel,
    submitOutcomeRun_resolve_error env (processingMark store i) i _ mdl e
      hmdl' hra]

/-- The submit-throws run of synthesizeVideo rethrows the caught error into
its setImmediate callback. -/
theorem synthesizeVideoRun_submit_rethrow (env : Env) (store : List Job)
    (i : Nat) (j : Job) (mdl : FaceModel) (ap e : String)
    (hsel : selectByID store i = some j)
    (hmdl : (env.models.find? fun mo => mo.id == j.model_id) = some mdl)
    (haud : j.audio_path = some ap) (hap : ¬ ap = "")
    (hsub : env.submit ap mdl.video_path = Except.error e) :
    (synthesizeVideoRun env store i).2 = some e := by
  have hmdl' : (env.models.find? fun mo =>
      mo.id == (applyUpdate processingUpdate j).model_id) = some mdl := by
    simp only [applyUpdate_model_id]
    exact hmdl
  have hra : resolveAudio env (applyUpdate processingUpdate j) mdl
      = Except.ok ap :=
    resolveAudio_existing env _ mdl ap
      (by rw [processingUpdate_audio_path, haud]) hap
  rw [synthesizeVideoRun_of_select env store i j hsel,
    submitOutcomeRun_submit_error env (processingMark store i) i _ mdl ap e
      hmdl' hra hsub]

/-- A tick that finds a pending row schedules no synthesis, so it produces
no unhandled rejection. -/
theorem tickUncaught_of_pending (env : Env) (store : List Job) (v : Job)
    (hp : findFirstByStatus store Status.pending = some v) :
    tickUncaught env store = [] := by
  obtain ⟨st', hpp, _⟩ := processPendingVideos_pending env store v hp
  rw [tickUncaught, tickRun, hpp]
  simp [runScheduled]

/-! ## Claim theorems -/

/-- C2: with no pending or processing row and the store strictly sorted by
creation time (as insertion with Date.now() produces), the store query for
the first waiting row returns the earliest-created waiting row A, and the
next tick promotes A and not B: after the tick, B is untouched and still
waiting while A has moved on to pending or failed. -/
theorem fifo_promotion (env : Env) (store : List Job) (A B : Job)
    (hsort : (store.map Job.created_at).Pairwise (· < ·))
    (hnd : (store.map Job.id).Nodup)
    (hA : A ∈ store) (hB : B ∈ store)
    (hAw : A.status = Status.waiting) (hBw : B.status = Status.waiting)
    (hAB : A.created_at < B.created_at)
    (hE : ∀ j ∈ store, j.status = Status.waiting → A.created_at ≤ j.created_at)
    (hnp : findFirstByStatus store Status.pending = none)
    (hnproc : findFirstByStatus store Status.processing = none) :
    findFirstByStatus store Status.waiting = some A ∧
    ¬ A.id = B.id ∧
    selectByID (processTaskQueue env store) B.id = some B ∧
    ∃ A', selectByID (processTaskQueue env store) A.id = some A' ∧
      (A'.status = Status.pending ∨ A'.status = Status.failed) := by
  have hfw := findFirst_waiting_of_earliest store A hsort hA hAw hE
  have hABne : ¬ A = B := by
    intro he
    rw [he] at hAB
    omega
  have hidne : ¬ A.id = B.id :=
    fun he => hABne (eq_of_id_eq_of_mem store A B hnd hA hB he)
  have htick := processTaskQueue_promotes env store A hnp hfw
  refine ⟨hfw, hidne, ?_, ?_⟩
  · rw [htick,
      selectByID_synthesizeVideo_ne env _ A.id B.id (fun h => hidne h.symm),
      selectByID_synthesizeVideo_ne env _ A.id B.id (fun h => hidne h.symm)]
    exact selectByID_of_mem_nodup store B hnd hB
  · have hselA : selectByID store A.id = some A :=
      selectByID_of_mem_nodup store A hnd hA
    obtain ⟨A1, h1, _⟩ := synthesizeVideo_status env store A.id A hselA
    obtain ⟨A2, h2, hst⟩ :=
      synthesizeVideo_status env (synthesizeVideo env store A.id) A.id A1 h1
    exact ⟨A2, htick ▸ h2, hst⟩

/-- Witness for fifo_promotion on two concrete waiting rows created at
times 10 and 20. -/
theorem fifo_promotion_witness :
    findFirstByStatus [waitingJobA, waitingJobB] Status.waiting
      = some waitingJobA ∧
    ¬ waitingJobA.id = waitingJobB.id ∧
    selectByID (processTaskQueue happyEnv [waitingJobA, waitingJobB])
      waitingJobB.id = some waitingJobB ∧
    ∃ A', selectByID (processTaskQueue happyEnv [waitingJobA, waitingJobB])
        waitingJobA.id = some A' ∧
      (A'.status = Status.pending ∨ A'.status = Status.failed) :=
  fifo_promotion happyEnv [waitingJobA, waitingJobB] waitingJobA waitingJobB
    (by decide) (by decide) (by decide) (by decide) (by decide) (by decide)
    (by decide) (by decide) (by decide) (by decide)

/-- C7: in a strictly created_at-sorted store, getWaitingTasks reports for
every waiting row the queue position 1 + number of waiting rows with a
strictly earlier creation time, together with the waiting-queue length,
recomputed from the store at query time. -/
theorem queuePosition_correct (store : List Job) (j : Job)
    (hsort : (store.map Job.created_at).Pairwise (· < ·))
    (hj : j ∈ store) (hw : j.status = Status.waiting) :
    ∃ e ∈ getWaitingTasks store, e.task = j ∧
      e.queuePosition = 1 + store.countP (fun k =>
        decide (k.created_at < j.created_at) && (k.status == Status.waiting)) ∧
      e.totalInQueue = (selectByStatus store Status.waiting).length := by
  have hjw : j ∈ selectByStatus store Status.waiting :=
    List.mem_filter.mpr ⟨hj, by simp [hw]⟩
  have hsub : List.Sublist
      ((selectByStatus store Status.waiting).map Job.created_at)
      (store.map Job.created_at) :=
    (List.filter_sublist store).map Job.created_at
  obtain ⟨e, he, het, htot, hpos⟩ := attachPositions_mem
    (selectByStatus store Status.waiting) j (hsort.sublist hsub) hjw 0
    (selectByStatus store Status.waiting).length
  refine ⟨e, he, het, ?_, htot⟩
  rw [hpos, selectByStatus, List.countP_filter]

/-- Witness for queuePosition_correct: the later of two concrete waiting
rows is reported at position 2 of 2. -/
theorem queuePosition_correct_witness :
    ∃ e ∈ getWaitingTasks [waitingJobA, waitingJobB], e.task = waitingJobB ∧
      e.queuePosition = 1 + ([waitingJobA, waitingJobB].countP fun k =>
        decide (k.created_at < waitingJobB.created_at)
          && (k.status == Status.waiting)) ∧
      e.totalInQueue =
        (selectByStatus [waitingJobA, waitingJobB] Status.waiting).length :=
  queuePosition_correct [waitingJobA, waitingJobB] waitingJobB
    (by decide) (by decide) (by decide)

/-- C3 counterexample: retrying the failed row with remote handle h0 and
audio a0.wav succeeds and moves it to waiting, but the resulting row still
carries the remote handle and the audio reference — the claim says both
are cleared. -/
theorem retry_counterexample :
    retryFailedTask [failedJob] 1 = Except.ok [retriedJob] ∧
    failedJob.status = Status.failed ∧
    retriedJob.status = Status.waiting ∧
    ¬ retriedJob.code = none ∧ ¬ retriedJob.audio_path = none := by decide

/-- C3 (amended): retrying a failed row sets status waiting, message
"Retrying task..." and progress 0 while leaving every other column — in
particular the remote handle and the audio reference — unchanged; retrying
a row in any other status is rejected with an error and changes nothing. -/
theorem retryFailedTask_spec (store : List Job) (i : Nat) (j : Job)
    (hsel : selectByID store i = some j) :
    (j.status = Status.failed →
      ∃ store', retryFailedTask store i = Except.ok store' ∧
        selectByID store' i = some { j with
          status := Status.waiting,
          message := some "Retrying task...", progress := 0 }) ∧
    (¬ j.status = Status.failed →
      retryFailedTask store i =
        Except.error ("Task is not in failed status: " ++ toString i)) := by
  constructor
  · intro hf
    have hb : (j.status == Status.failed) = true := by simp [hf]
    refine ⟨_, ?_, selectByID_update store
      { status := some Status.waiting,
        message := some (some "Retrying task..."), progress := some 0 } i j hsel⟩
    simp only [retryFailedTask, hsel, hb, if_true]
  · intro hf
    have hb : (j.status == Status.failed) = false := by simp [hf]
    simp [retryFailedTask, hsel, hb]

/-- Witness for retryFailedTask_spec at concrete rows: the failed row is
reset to waiting with its handle and audio untouched; a pending row is
rejected. -/
theorem retryFailedTask_spec_witness :
    (∃ store', retryFailedTask [failedJob] 1 = Except.ok store' ∧
      selectByID store' 1 = some { failedJob with
        status := Status.waiting,
        message := some "Retrying task...", progress := 0 }) ∧
    retryFailedTask [pendingJob] 1 =
      Except.error ("Task is not in failed status: " ++ toString 1) :=
  ⟨(retryFailedTask_spec [failedJob] 1 failedJob (by decide)).1 (by decide),
   (retryFailedTask_spec [pendingJob] 1 pendingJob (by decide)).2 (by decide)⟩

/-- C4: cancelling a row in waiting, processing or pending succeeds and
results in failed with the cancellation message; cancelling a completed or
already-failed row is rejected with the guard error (the store is returned
unchanged only through the error, so the row is untouched); cancelling a
missing row is rejected with a not-found error. -/
theorem cancelTask_guard (store : List Job) (i : Nat) :
    (∀ j, selectByID store i = some j →
      ((j.status = Status.waiting ∨ j.status = Status.processing ∨
          j.status = Status.pending) →
        ∃ store', cancelTask store i = Except.ok store' ∧
          selectByID store' i = some { j with
            status := Status.failed,
            message := some "Task cancelled by user", progress := 0 }) ∧
      ((j.status = Status.completed ∨ j.status = Status.failed) →
        cancelTask store i =
          Except.error ("Cannot cancel task in status: " ++ j.status.toText))) ∧
    (selectByID store i = none →
      cancelTask store i = Except.error ("Task not found: " ++ toString i)) := by
  constructor
  · intro j hsel
    constructor
    · intro hst
      have hb : (j.status == Status.waiting || j.status == Status.processing
          || j.status == Status.pending) = true := by
        rcases hst with h | h | h <;> simp [h]
      refine ⟨_, ?_, selectByID_update store
        { status := some Status.failed,
          message := some (some "Task cancelled by user"),
          progress := some 0 } i j hsel⟩
      simp only [cancelTask, hsel, hb, if_true]
    · intro hst
      have hb : (j.status == Status.waiting || j.status == Status.processing
          || j.status == Status.pending) = false := by
        rcases hst with h | h <;> simp [h]
      simp [cancelTask, hsel, hb]
  · intro hnone
    simp [cancelTask, hnone]

/-- Witness for cancelTask_guard at concrete rows: a pending row is
cancelled into failed; a completed row is rejected. -/
theorem cancelTask_guard_witness :
    (∃ store', cancelTask [pendingJob] 1 = Except.ok store' ∧
      selectByID store' 1 = some { pendingJob with
        status := Status.failed,
        message := some "Task cancelled by user", progress := 0 }) ∧
    cancelTask [completedJob] 1 =
      Except.error "Cannot cancel task in status: completed" :=
  ⟨((cancelTask_guard [pendingJob] 1).1 pendingJob (by decide)).1 (by decide),
   ((cancelTask_guard [completedJob] 1).1 completedJob (by decide)).2 (by decide)⟩

/-- C10: a successful cancel changes exactly status, message and progress;
the audio reference, remote handle, result path, duration, creation time
and every other column of the row are unchanged, and so is every other
row of the store. -/
theorem cancelTask_frame (store : List Job) (i : Nat) (j : Job)
    (hsel : selectByID store i = some j)
    (hst : j.status = Status.waiting ∨ j.status = Status.processing ∨
      j.status = Status.pending) :
    ∃ store' j', cancelTask store i = Except.ok store' ∧
      selectByID store' i = some j' ∧
      j'.status = Status.failed ∧ j'.message = some "Task cancelled by user" ∧
      j'.progress = 0 ∧ j'.id = j.id ∧ j'.name = j.name ∧
      j'.model_id = j.model_id ∧ j'.voice_id = j.voice_id ∧
      j'.text_content = j.text_content ∧ j'.audio_path = j.audio_path ∧
      j'.code = j.code ∧ j'.param = j.param ∧ j'.file_path = j.file_path ∧
      j'.duration = j.duration ∧ j'.created_at = j.created_at ∧
      (∀ k, ¬ k = i → selectByID store' k = selectByID store k) := by
  have hb : (j.status == Status.waiting || j.status == Status.processing
      || j.status == Status.pending) = true := by
    rcases hst with h | h | h <;> simp [h]
  refine ⟨_, _, ?_, selectByID_update store
    { status := some Status.failed,
      message := some (some "Task cancelled by user"), progress := some 0 } i j hsel,
    rfl, rfl, rfl, rfl, rfl, rfl, rfl, rfl, rfl, rfl, rfl, rfl, rfl, rfl,
    fun k hk => selectByID_update_ne store _ i k hk⟩
  simp only [cancelTask, hsel, hb, if_true]

/-- Witness for cancelTask_frame: cancelling the concrete pending row keeps
its audio, handle, result path, duration and creation time. -/
theorem cancelTask_frame_witness :
    ∃ store' j', cancelTask [pendingJob] 1 = Except.ok store' ∧
      selectByID store' 1 = some j' ∧
      j'.status = Status.failed ∧ j'.message = some "Task cancelled by user" ∧
      j'.progress = 0 ∧ j'.id = pendingJob.id ∧ j'.name = pendingJob.name ∧
      j'.model_id = pendingJob.model_id ∧ j'.voice_id = pendingJob.voice_id ∧
      j'.text_content = pendingJob.text_content ∧
      j'.audio_path = pendingJob.audio_path ∧
      j'.code = pendingJob.code ∧ j'.param = pendingJob.param ∧
      j'.file_path = pendingJob.file_path ∧
      j'.duration = pendingJob.duration ∧
      j'.created_at = pendingJob.created_at ∧
      (∀ k, ¬ k = 1 → selectByID store' k = selectByID [pendingJob] k) :=
  cancelTask_frame [pendingJob] 1 pendingJob (by decide) (by decide)

/-- C8 counterexample: the generate route accepts a completed row — the
guard only rejects processing and pending — moving it to waiting and then
straight through synthesis to pending, where the claim says any status
other than draft or failed must be rejected with the row unchanged. -/
theorem generate_completed_counterexample :
    completedJob.status = Status.completed ∧
    generateRoute happyEnv [completedJob] 1 = Except.ok [regeneratedJob] ∧
    regeneratedJob.status = Status.pending := by decide

/-- C8 (amended): the generate route rejects exactly a missing row or a row
already in processing or pending; every other status — draft, failed, and
also waiting and completed — is accepted, set to waiting with progress 0,
and immediately run through synthesis, ending in pending or failed. -/
theorem generateRoute_guard (env : Env) (store : List Job) (i : Nat) :
    (∀ j, selectByID store i = some j →
      ((j.status = Status.processing ∨ j.status = Status.pending) →
        generateRoute env store i =
          Except.error "Video is already being processed") ∧
      ((¬ j.status = Status.processing ∧ ¬ j.status = Status.pending) →
        ∃ store' j', generateRoute env store i = Except.ok store' ∧
          selectByID store' i = some j' ∧
          (j'.status = Status.pending ∨ j'.status = Status.failed))) ∧
    (selectByID store i = none →
      generateRoute env store i = Except.error "Video not found") := by
  constructor
  · intro j hsel
    constructor
    · intro hst
      have hb : (j.status == Status.processing
          || j.status == Status.pending) = true := by
        rcases hst with h | h <;> simp [h]
      simp [generateRoute, hsel, hb]
    · intro hst
      have hb : (j.status == Status.processing
          || j.status == Status.pending) = false := by
        simp [hst.1, hst.2]
      have h1 := selectByID_update store
        { status := some Status.waiting, progress := some 0 } i j hsel
      obtain ⟨j', hj', hstat⟩ := synthesizeVideo_status env _ i _ h1
      refine ⟨_, j', ?_, hj', hstat⟩
      simp only [generateRoute, hsel, hb, Bool.false_eq_true, if_false]
  · intro hnone
    simp [generateRoute, hnone]

/-- Witness for generateRoute_guard: a waiting row with audio is accepted
and driven to pending or failed; a pending row is rejected. -/
theorem generateRoute_guard_witness :
    (∃ store' j', generateRoute happyEnv [waitingAudioJob] 1 = Except.ok store' ∧
      selectByID store' 1 = some j' ∧
      (j'.status = Status.pending ∨ j'.status = Status.failed)) ∧
    generateRoute happyEnv [pendingJob] 1 =
      Except.error "Video is already being processed" :=
  ⟨((generateRoute_guard happyEnv [waitingAudioJob] 1).1 waitingAudioJob
      (by decide)).2 (by decide),
   ((generateRoute_guard happyEnv [pendingJob] 1).1 pendingJob
      (by decide)).1 (by decide)⟩

/-- C1 counterexample: after creating two drafts and calling the generate
route on both (the second while the first is already pending), then running
one scheduler tick, two rows are simultaneously in the in-flight statuses
at the end of the tick — the single-flight bound of at most one fails. -/
theorem single_flight_counterexample :
    inFlightCount (runActions initialState doubleFlightActs).store = 2 ∧
    ¬ inFlightCount (runActions initialState doubleFlightActs).store ≤ 1 := by
  decide

/-- C1 (amended): at most one row is advanced per scheduler tick — there is
an id such that every other row reads back unchanged after the tick — and
the scheduler itself promotes a waiting row only when no row is pending:
when a pending row exists, a tick leaves every waiting row untouched.
The single-flight invariant fails system-wide only because the tick does
not check the processing status and the generate route starts synthesis
outside the scheduler. -/
theorem tick_single_advance (env : Env) (store : List Job) :
    (∃ i : Nat, ∀ k, ¬ k = i →
      selectByID (processTaskQueue env store) k = selectByID store k) ∧
    (∀ v j : Job, (store.map Job.id).Nodup →
      findFirstByStatus store Status.pending = some v →
      j ∈ store → j.status = Status.waiting →
      selectByID (processTaskQueue env store) j.id = some j) := by
  constructor
  · cases hp : findFirstByStatus store Status.pending with
    | some v =>
      refine ⟨v.id, fun k hk => ?_⟩
      rcases processTaskQueue_of_pending env store v hp with hq | ⟨u, hq⟩
      · rw [hq]
      · rw [hq, selectByID_update_ne _ _ _ _ hk]
    | none =>
      cases hw : findFirstByStatus store Status.waiting with
      | some w =>
        refine ⟨w.id, fun k hk => ?_⟩
        rw [processTaskQueue_promotes env store w hp hw,
          selectByID_synthesizeVideo_ne env _ w.id k hk,
          selectByID_synthesizeVideo_ne env _ w.id k hk]
      | none =>
        refine ⟨0, fun k _ => ?_⟩
        rw [processTaskQueue_noop env store hp hw]
  · intro v j hnd hp hj hjw
    have hv := findFirstByStatus_mem store Status.pending v hp
    have hne : ¬ j.id = v.id := by
      intro he
      have hjv := eq_of_id_eq_of_mem store j v hnd hj hv.1 he
      have h2 : v.status = Status.waiting := by rw [← hjv]; exact hjw
      rw [hv.2] at h2
      cases h2
    rcases processTaskQueue_of_pending env store v hp with hq | ⟨u, hq⟩
    · rw [hq]; exact selectByID_of_mem_nodup store j hnd hj
    · rw [hq, selectByID_update_ne _ _ _ _ hne]
      exact selectByID_of_mem_nodup store j hnd hj

/-- Witness for tick_single_advance: on a concrete store with a pending and
a waiting row, some id bounds the tick effect, and the waiting row reads
back exactly as it was. -/
theorem tick_single_advance_witness :
    (∃ i : Nat, ∀ k, ¬ k = i →
      selectByID (processTaskQueue happyEnv [pendingJob, waitingJobB]) k =
        selectByID [pendingJob, waitingJobB] k) ∧
    selectByID (processTaskQueue happyEnv [pendingJob, waitingJobB]) 2 =
      some waitingJobB :=
  ⟨(tick_single_advance happyEnv [pendingJob, waitingJobB]).1,
   (tick_single_advance happyEnv [pendingJob, waitingJobB]).2 pendingJob
     waitingJobB (by decide) (by decide) (by decide) (by decide)⟩

/-- C5 counterexample: a rejected submission ends the row failed with the
remote message, but the generated task code — the remote handle — is
recorded on the row, where the claim says no remote handle is set. -/
theorem submit_reject_counterexample :
    synthesizeVideo rejectEnv [waitingAudioJob] 1 = [rejectedJob] ∧
    rejectedJob.status = Status.failed ∧
    rejectedJob.message = some "quota exceeded" ∧
    ¬ rejectedJob.code = none := by decide

/-- C5 (amended): whenever the audio stage resolves — either from a
pre-supplied truthy audio path, or through a successful TTS call on a row
without one — and the submit call answers a rejection with a nonempty
message, the row ends failed with exactly that message — and the remote
handle (the generated task code), the audio path and the submit parameters
are all recorded on the row, while file_path is cleared. -/
theorem submit_reject_spec (env : Env) (store : List Job) (i : Nat) (j : Job)
    (mdl : FaceModel) (ap m : String) (r : SubmitResult)
    (hsel : selectByID store i = some j)
    (hmdl : (env.models.find? fun mo => mo.id == j.model_id) = some mdl)
    (haud : (j.audio_path = some ap ∧ ¬ ap = "") ∨
      (j.audio_path = none ∧ ∃ vid voice,
        jsOrId j.voice_id mdl.voice_id = some vid ∧
        (env.voices.find? fun vo => vo.id == vid) = some voice ∧
        env.tts voice.id j.text_content = Except.ok ap))
    (hsub : env.submit ap mdl.video_path = Except.ok r)
    (hcode : ¬ r.code = 10000) (hmsg : r.msg = some m) (hm : ¬ m = "") :
    ∃ j', selectByID (synthesizeVideo env store i) i = some j' ∧
      j'.status = Status.failed ∧ j'.message = some m ∧
      j'.code = some env.uuid ∧ j'.audio_path = some ap ∧
      j'.param = some (paramText env ap mdl.video_path) ∧
      j'.file_path = none := by
  have h1 : selectByID (processingMark store i) i
      = some (applyUpdate processingUpdate j) :=
    selectByID_update store processingUpdate i j hsel
  have hmdl' : (env.models.find? fun mo =>
      mo.id == (applyUpdate processingUpdate j).model_id) = some mdl := by
    simp only [applyUpdate_model_id]
    exact hmdl
  have hra : resolveAudio env (applyUpdate processingUpdate j) mdl
      = Except.ok ap := by
    rcases haud with ⟨ha, hne⟩ | ⟨ha, vid, voice, hvid, hvoice, htts⟩
    · exact resolveAudio_existing env _ mdl ap
        (by rw [processingUpdate_audio_path, ha]) hne
    · rw [resolveAudio_tts env _ mdl vid voice
        (by rw [processingUpdate_audio_path, ha])
        (by rw [applyUpdate_voice_id, hvid]) hvoice,
        applyUpdate_text_content, htts]
  rw [synthesizeVideo_of_select env store i j hsel,
    submitOutcome_submit_answered env (processingMark store i) i _ mdl ap r
      hmdl' hra hsub,
    if_neg (by simp [hcode])]
  refine ⟨_, selectByID_update _ _ i _ h1, rfl, ?_, rfl, rfl, rfl, rfl⟩
  show some (jsOr r.msg "Task submission failed") = some m
  rw [hmsg]
  simp [jsOr, hm]

/-- Witness for submit_reject_spec at the concrete quota-exceeded submit,
exercising both audio branches: a row whose audio comes from TTS and a
row whose audio was pre-supplied. -/
theorem submit_reject_spec_witness :
    (∃ j', selectByID (synthesizeVideo rejectEnv [waitingJobA] 1) 1
        = some j' ∧
      j'.status = Status.failed ∧ j'.message = some "quota exceeded" ∧
      j'.code = some rejectEnv.uuid ∧ j'.audio_path = some "a1.wav" ∧
      j'.param = some (paramText rejectEnv "a1.wav" model1.video_path) ∧
      j'.file_path = none) ∧
    (∃ j', selectByID (synthesizeVideo rejectEnv [waitingAudioJob] 1) 1
        = some j' ∧
      j'.status = Status.failed ∧ j'.message = some "quota exceeded" ∧
      j'.code = some rejectEnv.uuid ∧ j'.audio_path = some "a0.wav" ∧
      j'.param = some (paramText rejectEnv "a0.wav" model1.video_path) ∧
      j'.file_path = none) :=
  ⟨submit_reject_spec rejectEnv [waitingJobA] 1 waitingJobA model1
    "a1.wav" "quota exceeded" { code := 9999, msg := some "quota exceeded" }
    (by decide) (by decide)
    (Or.inr ⟨by decide, 1, voice1, by decide, by decide, rfl⟩)
    rfl (by decide) rfl (by decide),
   submit_reject_spec rejectEnv [waitingAudioJob] 1 waitingAudioJob model1
    "a0.wav" "quota exceeded" { code := 9999, msg := some "quota exceeded" }
    (by decide) (by decide) (Or.inl ⟨by decide, by decide⟩)
    rfl (by decide) rfl (by decide)⟩

/-- C6 counterexample: a poll response with the recognized top-level code
but an unrecognized data status (7) leaves the pending row entirely
untouched: it neither completes, nor fails, nor updates progress or
message to the remote-reported values — a fourth outcome the claim does
not allow. -/
theorem poll_unknown_counterexample :
    processPendingVideos strangePollEnv [pendingJob] = ([pendingJob], true, []) ∧
    pendingJob.status = Status.pending ∧
    ¬ pendingJob.progress = 99 ∧ ¬ pendingJob.message = some "new" ∧
    strangePollEnv.poll "h1" = Except.ok
      { code := 10000, msg := some "ok",
        data := { status := 7, msg := some "new", progress := 99,
                  result := "r1.mp4" } } := by decide

/-- C6 (amended): a poll tick on the first pending row always reports it
processed and schedules nothing, and the outcome is exactly one of: failed
on a thrown poll call (check-failure message); failed on a failure
response code (top-level remote message); still pending with progress and
message updated to the remote values (remote running); completed with
result path and probed duration (remote success, probe succeeds); failed
with the completion-failure message (probe throws); failed with the remote
data message (remote terminal status); or — on a response outside the
recognized protocol codes or data statuses — the store left entirely
unchanged. -/
theorem pending_poll_outcomes (env : Env) (store : List Job) (v : Job)
    (hnd : (store.map Job.id).Nodup)
    (hp : findFirstByStatus store Status.pending = some v) :
    (processPendingVideos env store).2 = (true, []) ∧
    ((∃ e, env.poll (v.code.getD "undefined") = Except.error e ∧
        ∃ j', selectByID (processPendingVideos env store).1 v.id = some j' ∧
          j'.status = Status.failed ∧
          j'.message = some ("Status check failed: " ++ e)) ∨
     (∃ resp, env.poll (v.code.getD "undefined") = Except.ok resp ∧
        (resp.code = 9999 ∨ resp.code = 10002 ∨ resp.code = 10003) ∧
        ∃ j', selectByID (processPendingVideos env store).1 v.id = some j' ∧
          j'.status = Status.failed ∧ j'.message = resp.msg) ∨
     (∃ resp, env.poll (v.code.getD "undefined") = Except.ok resp ∧
        resp.code = 10000 ∧ resp.data.status = 1 ∧
        ∃ j', selectByID (processPendingVideos env store).1 v.id = some j' ∧
          j'.status = Status.pending ∧ j'.message = resp.data.msg ∧
          j'.progress = resp.data.progress) ∨
     (∃ resp dur, env.poll (v.code.getD "undefined") = Except.ok resp ∧
        resp.code = 10000 ∧ resp.data.status = 2 ∧
        env.probe resp.data.result = Except.ok dur ∧
        ∃ j', selectByID (processPendingVideos env store).1 v.id = some j' ∧
          j'.status = Status.completed ∧ j'.message = resp.data.msg ∧
          j'.progress = resp.data.progress ∧
          j'.file_path = some resp.data.result ∧ j'.duration = some dur) ∨
     (∃ resp e, env.poll (v.code.getD "undefined") = Except.ok resp ∧
        resp.code = 10000 ∧ resp.data.status = 2 ∧
        env.probe resp.data.result = Except.error e ∧
        ∃ j', selectByID (processPendingVideos env store).1 v.id = some j' ∧
          j'.status = Status.failed ∧
          j'.message = some ("Completion handling failed: " ++ e)) ∨
     (∃ resp, env.poll (v.code.getD "undefined") = Except.ok resp ∧
        resp.code = 10000 ∧ resp.data.status = 3 ∧
        ∃ j', selectByID (processPendingVideos env store).1 v.id = some j' ∧
          j'.status = Status.failed ∧ j'.message = resp.data.msg) ∨
     (∃ resp, env.poll (v.code.getD "undefined") = Except.ok resp ∧
        resp.code = 10000 ∧ ¬ resp.data.status = 1 ∧ ¬ resp.data.status = 2 ∧
        ¬ resp.data.status = 3 ∧
        (processPendingVideos env store).1 = store) ∨
     (∃ resp, env.poll (v.code.getD "undefined") = Except.ok resp ∧
        ¬ resp.code = 9999 ∧ ¬ resp.code = 10002 ∧ ¬ resp.code = 10003 ∧
        ¬ resp.code = 10000 ∧
        (processPendingVideos env store).1 = store)) := by
  have hv : selectByID store v.id = some v :=
    selectByID_of_mem_nodup store v hnd (findFirstByStatus_mem store _ v hp).1
  cases hpoll : env.poll (v.code.getD "undefined") with
  | error e =>
    rw [processPendingVideos_poll_error env store v e hp hpoll]
    exact ⟨rfl, Or.inl ⟨e, rfl, _,
      selectByID_update store _ v.id v hv, rfl, rfl⟩⟩
  | ok resp =>
    by_cases h1 : resp.code = 9999
    · rw [processPendingVideos_poll_failcode env store v resp hp hpoll
        (Or.inl h1)]
      exact ⟨rfl, Or.inr (Or.inl ⟨resp, rfl, Or.inl h1, _,
        selectByID_update store _ v.id v hv, rfl, rfl⟩)⟩
    · by_cases h2 : resp.code = 10002
      · rw [processPendingVideos_poll_failcode env store v resp hp hpoll
          (Or.inr (Or.inl h2))]
        exact ⟨rfl, Or.inr (Or.inl ⟨resp, rfl, Or.inr (Or.inl h2), _,
          selectByID_update store _ v.id v hv, rfl, rfl⟩)⟩
      · by_cases h3 : resp.code = 10003
        · rw [processPendingVideos_poll_failcode env store v resp hp hpoll
            (Or.inr (Or.inr h3))]
          exact ⟨rfl, Or.inr (Or.inl ⟨resp, rfl, Or.inr (Or.inr h3), _,
            selectByID_update store _ v.id v hv, rfl, rfl⟩)⟩
        · by_cases h0 : resp.code = 10000
          · by_cases hs1 : resp.data.status = 1
            · rw [processPendingVideos_poll_running env store v resp hp hpoll
                h0 hs1]
              exact ⟨rfl, Or.inr (Or.inr (Or.inl ⟨resp, rfl, h0, hs1, _,
                selectByID_update store _ v.id v hv, rfl, rfl, rfl⟩))⟩
            · by_cases hs2 : resp.data.status = 2
              · cases hprobe : env.probe resp.data.result with
                | ok dur =>
                  rw [processPendingVideos_poll_success env store v resp hp
                      hpoll h0 hs2,
                    handleVideoCompletion_probe_ok env store v resp.data dur
                      hprobe]
                  exact ⟨rfl, Or.inr (Or.inr (Or.inr (Or.inl ⟨resp, dur,
                    rfl, h0, hs2, hprobe, _,
                    selectByID_update store _ v.id v hv,
                    rfl, rfl, rfl, rfl, rfl⟩)))⟩
                | error e =>
                  rw [processPendingVideos_poll_success env store v resp hp
                      hpoll h0 hs2,
                    handleVideoCompletion_probe_error env store v resp.data e
                      hprobe]
                  exact ⟨rfl, Or.inr (Or.inr (Or.inr (Or.inr (Or.inl ⟨resp, e,
                    rfl, h0, hs2, hprobe, _,
                    selectByID_update store _ v.id v hv, rfl, rfl⟩))))⟩
              · by_cases hs3 : resp.data.status = 3
                · rw [processPendingVideos_poll_terminal env store v resp hp
                    hpoll h0 hs3]
                  exact ⟨rfl, Or.inr (Or.inr (Or.inr (Or.inr (Or.inr (Or.inl
                    ⟨resp, rfl, h0, hs3, _,
                    selectByID_update store _ v.id v hv, rfl, rfl⟩)))))⟩
                · rw [processPendingVideos_poll_unknown_status env store v
                    resp hp hpoll h0 hs1 hs2 hs3]
                  exact ⟨rfl, Or.inr (Or.inr (Or.inr (Or.inr (Or.inr (Or.inr
                    (Or.inl ⟨resp, rfl, h0, hs1, hs2, hs3, rfl⟩))))))⟩
          · rw [processPendingVideos_poll_unknown_code env store v resp hp
              hpoll h1 h2 h3 h0]
            exact ⟨rfl, Or.inr (Or.inr (Or.inr (Or.inr (Or.inr (Or.inr
              (Or.inr ⟨resp, rfl, h1, h2, h3, h0, rfl⟩))))))⟩

/-- Witness for pending_poll_outcomes: the concrete pending row under the
happy gateways is reported processed with nothing scheduled. -/
theorem pending_poll_outcomes_witness :
    (processPendingVideos happyEnv [pendingJob]).2 = (true, []) :=
  (pending_poll_outcomes happyEnv [pendingJob] pendingJob (by decide)
    (by decide)).1

/-- C9 counterexample: a thrown TTS call is caught and the row is marked
failed — but the catch block then rethrows the error (video service,
synthesizeVideo) into a setImmediate callback that nothing catches, so the
tick produces unhandled promise rejections; under the default policy of
the Node versions the project requires (16 and later) the process dies,
and the loop does not continue: the second tick, which would promote the
second waiting row, never runs. -/
theorem tick_loop_terminates_counterexample :
    tickUncaught ttsErrorEnv [waitingJobA, waitingJobB]
      = ["tts down", "tts down"] ∧
    (runTicks [ttsErrorEnv, happyEnv]
      { store := [waitingJobA, waitingJobB], alive := true }).alive = false ∧
    selectByID (runTicks [ttsErrorEnv, happyEnv]
      { store := [waitingJobA, waitingJobB], alive := true }).store 2
      = some waitingJobB ∧
    waitingJobB.status = Status.waiting := by decide

/-- C9 (amended): every gateway exception while a tick advances a row is
caught and converted into a failed status with the error message preserved
in the message field (verbatim for TTS and submit, behind a fixed
explanatory prelude for poll and probe); a thrown poll or probe is fully
absorbed — the tick produces no unhandled rejection — and a failed row is
never touched by a later tick (no automatic retry); but a thrown TTS or
submit call is rethrown after the status update into a setImmediate
callback that nothing catches, and under the default unhandled-rejection
policy of the required Node versions a tick with such a rejection kills
the process, after which every tick is a no-op: the loop does not continue
past those errors. -/
theorem gateway_error_isolation :
    (∀ (env : Env) (store : List Job) (i : Nat) (j : Job) (mdl : FaceModel)
        (vid : Nat) (voice : Voice) (e : String),
      selectByID store i = some j →
      (env.models.find? fun mo => mo.id == j.model_id) = some mdl →
      j.audio_path = none →
      jsOrId j.voice_id mdl.voice_id = some vid →
      (env.voices.find? fun vo => vo.id == vid) = some voice →
      env.tts voice.id j.text_content = Except.error e →
      (∃ j', selectByID (synthesizeVideo env store i) i = some j' ∧
        j'.status = Status.failed ∧ j'.message = some e) ∧
      (synthesizeVideoRun env store i).2 = some e) ∧
    (∀ (env : Env) (store : List Job) (i : Nat) (j : Job) (mdl : FaceModel)
        (ap e : String),
      selectByID store i = some j →
      (env.models.find? fun mo => mo.id == j.model_id) = some mdl →
      j.audio_path = some ap → ¬ ap = "" →
      env.submit ap mdl.video_path = Except.error e →
      (∃ j', selectByID (synthesizeVideo env store i) i = some j' ∧
        j'.status = Status.failed ∧ j'.message = some e) ∧
      (synthesizeVideoRun env store i).2 = some e) ∧
    (∀ (env : Env) (store : List Job) (v : Job) (e : String),
      (store.map Job.id).Nodup →
      findFirstByStatus store Status.pending = some v →
      env.poll (v.code.getD "undefined") = Except.error e →
      (∃ j', selectByID (processTaskQueue env store) v.id = some j' ∧
        j'.status = Status.failed ∧
        j'.message = some ("Status check failed: " ++ e)) ∧
      tickUncaught env store = []) ∧
    (∀ (env : Env) (store : List Job) (v : Job) (resp : PollResponse)
        (e : String),
      (store.map Job.id).Nodup →
      findFirstByStatus store Status.pending = some v →
      env.poll (v.code.getD "undefined") = Except.ok resp →
      resp.code = 10000 → resp.data.status = 2 →
      env.probe resp.data.result = Except.error e →
      (∃ j', selectByID (processTaskQueue env store) v.id = some j' ∧
        j'.status = Status.failed ∧
        j'.message = some ("Completion handling failed: " ++ e)) ∧
      tickUncaught env store = []) ∧
    (∀ (env : Env) (store : List Job) (j : Job),
      (store.map Job.id).Nodup → j ∈ store → j.status = Status.failed →
      selectByID (processTaskQueue env store) j.id = some j) ∧
    (∀ (env : Env) (p : ProcState), p.alive = true →
      ¬ tickUncaught env p.store = [] → (tickProc env p).alive = false) ∧
    (∀ (env : Env) (p : ProcState), p.alive = false → tickProc env p = p) := by
  refine ⟨?_, ?_, ?_, ?_, ?_, ?_, ?_⟩
  · intro env store i j mdl vid voice e hsel hmdl haud hvid hvoice htts
    constructor
    · obtain ⟨j', hj', hst, hmsg, _⟩ :=
        synthesizeVideo_tts_error env store i j mdl vid voice e hsel hmdl haud
          hvid hvoice htts
      exact ⟨j', hj', hst, hmsg⟩
    · exact synthesizeVideoRun_tts_rethrow env store i j mdl vid voice e hsel
        hmdl haud hvid hvoice htts
  · intro env store i j mdl ap e hsel hmdl haud hap hsub
    constructor
    · obtain ⟨j', hj', hst, hmsg, _⟩ :=
        synthesizeVideo_submit_error env store i j mdl ap e hsel hmdl haud hap
          hsub
      exact ⟨j', hj', hst, hmsg⟩
    · exact synthesizeVideoRun_submit_rethrow env store i j mdl ap e hsel hmdl
        haud hap hsub
  · intro env store v e hnd hp hpoll
    have hv : selectByID store v.id = some v :=
      selectByID_of_mem_nodup store v hnd (findFirstByStatus_mem store _ v hp).1
    refine ⟨?_, tickUncaught_of_pending env store v hp⟩
    rw [processTaskQueue_eq_of_pending env store v hp,
      processPendingVideos_poll_error env store v e hp hpoll]
    exact ⟨_, selectByID_update store _ v.id v hv, rfl, rfl⟩
  · intro env store v resp e hnd hp hpoll h10 hs2 hprobe
    have hv : selectByID store v.id = some v :=
      selectByID_of_mem_nodup store v hnd (findFirstByStatus_mem store _ v hp).1
    refine ⟨?_, tickUncaught_of_pending env store v hp⟩
    rw [processTaskQueue_eq_of_pending env store v hp,
      processPendingVideos_poll_success env store v resp hp hpoll h10 hs2,
      handleVideoCompletion_probe_error env store v resp.data e hprobe]
    exact ⟨_, selectByID_update store _ v.id v hv, rfl, rfl⟩
  · intro env store j hnd hj hjf
    cases hp : findFirstByStatus store Status.pending with
    | some v =>
      have hvm := findFirstByStatus_mem store Status.pending v hp
      have hne : ¬ j.id = v.id := by
        intro he
        have hjv := eq_of_id_eq_of_mem store j v hnd hj hvm.1 he
        rw [hjv, hvm.2] at hjf
        cases hjf
      rcases processTaskQueue_of_pending env store v hp with hq | ⟨u, hq⟩
      · rw [hq]
        exact selectByID_of_mem_nodup store j hnd hj
      · rw [hq, selectByID_update_ne _ _ _ _ hne]
        exact selectByID_of_mem_nodup store j hnd hj
    | none =>
      cases hw : findFirstByStatus store Status.waiting with
      | none =>
        rw [processTaskQueue_noop env store hp hw]
        exact selectByID_of_mem_nodup store j hnd hj
      | some w =>
        have hwm := findFirstByStatus_mem store Status.waiting w hw
        have hne : ¬ j.id = w.id := by
          intro he
          have hjw := eq_of_id_eq_of_mem store j w hnd hj hwm.1 he
          rw [hjw, hwm.2] at hjf
          cases hjf
        rw [processTaskQueue_promotes env store w hp hw,
          selectByID_synthesizeVideo_ne env _ w.id j.id hne,
          selectByID_synthesizeVideo_ne env _ w.id j.id hne]
        exact selectByID_of_mem_nodup store j hnd hj
  · intro env p ha hne
    rw [tickProc, if_pos ha]
    show (tickRun env p.store).2.isEmpty = false
    cases hl : (tickRun env p.store).2 with
    | nil => exact absurd hl hne
    | cons a t => rfl
  · intro env p ha
    rw [tickProc, if_neg (by simp [ha])]

/-- Witness for gateway_error_isolation: each error site exercised on a
concrete store and gateway set, with the rethrow and uncaught-rejection
facts, the untouched failed row, and the process-death step. -/
theorem gateway_error_isolation_witness :
    ((∃ j', selectByID (synthesizeVideo ttsErrorEnv [waitingJobA] 1) 1
        = some j' ∧
      j'.status = Status.failed ∧ j'.message = some "tts down") ∧
      (synthesizeVideoRun ttsErrorEnv [waitingJobA] 1).2 = some "tts down") ∧
    ((∃ j', selectByID (synthesizeVideo submitErrorEnv [waitingAudioJob] 1) 1
        = some j' ∧
      j'.status = Status.failed ∧ j'.message = some "gateway down") ∧
      (synthesizeVideoRun submitErrorEnv [waitingAudioJob] 1).2
        = some "gateway down") ∧
    ((∃ j', selectByID (processTaskQueue pollErrorEnv [pendingJob]) 1
        = some j' ∧
      j'.status = Status.failed ∧
      j'.message = some ("Status check failed: " ++ "net down")) ∧
      tickUncaught pollErrorEnv [pendingJob] = []) ∧
    ((∃ j', selectByID (processTaskQueue probeErrorEnv [pendingJob]) 1
        = some j' ∧
      j'.status = Status.failed ∧
      j'.message = some ("Completion handling failed: " ++ "unreadable")) ∧
      tickUncaught probeErrorEnv [pendingJob] = []) ∧
    selectByID (processTaskQueue happyEnv [failedJob]) 1 = some failedJob ∧
    (tickProc ttsErrorEnv { store := [waitingJobA], alive := true }).alive
      = false ∧
    tickProc happyEnv { store := [waitingJobA], alive := false }
      = { store := [waitingJobA], alive := false } :=
  ⟨gateway_error_isolation.1 ttsErrorEnv [waitingJobA] 1 waitingJobA model1 1
      voice1 "tts down" (by decide) (by decide) (by decide) (by decide)
      (by decide) rfl,
   gateway_error_isolation.2.1 submitErrorEnv [waitingAudioJob] 1
      waitingAudioJob model1 "a0.wav" "gateway down" (by decide) (by decide)
      (by decide) (by decide) rfl,
   gateway_error_isolation.2.2.1 pollErrorEnv [pendingJob] pendingJob
      "net down" (by decide) (by decide) rfl,
   gateway_error_isolation.2.2.2.1 probeErrorEnv [pendingJob] pendingJob
      { code := 10000, msg := some "ok",
        data := { status := 2, msg := some "done", progress := 100,
                  result := "r1.mp4" } }
      "unreadable" (by decide) (by decide) rfl (by decide) (by decide) rfl,
   gateway_error_isolation.2.2.2.2.1 happyEnv [failedJob] failedJob
      (by decide) (by decide) (by decide),
   gateway_error_isolation.2.2.2.2.2.1 ttsErrorEnv
      { store := [waitingJobA], alive := true } rfl (by decide),
   gateway_error_isolation.2.2.2.2.2.2 happyEnv
      { store := [waitingJobA], alive := false } rfl⟩

end Heygem
